import Mathlib

/-!
# T-Display-S3 DS1302 clock: periodic tasks, NTP sync and button debounce

A shallow embedding of `src/main.cpp`.  Globals and function statics are the
fields of `State`; every value the firmware obtains from outside (a `millis()`
reading, a pin level, the Wi-Fi status, the outcome of `getLocalTime`) is an
explicit input of the function that reads it, one input per read, in source
order.  Calls into the display, serial, RTC and Wi-Fi libraries are recorded,
in order, in `State.log`.

`unsigned long` is 32 bits on the ESP32-S3: counter readings are reduced
modulo `2^32` and differences are taken with wrapping subtraction.
-/

namespace TDisplayClock

/-! ## Machine arithmetic -/

/-- Number of values of a 32-bit `unsigned long`. -/
def U32 : Nat := 4294967296

/-- The value returned by one `millis()` call when the free-running counter
stands at `t`. -/
def millis (t : Nat) : Nat := t % U32

/-- Unsigned 32-bit subtraction `a - b`. -/
def wsub (a b : Nat) : Nat := (a % U32 + U32 - b % U32) % U32

/-- The value of a 32-bit `int` expression whose mathematical result is `x`:
two's-complement wrap into `-2^31 .. 2^31 - 1`.  (Signed overflow is undefined
in C; on the ESP32-S3 the addition wraps.) -/
def wrapInt (x : Int) : Int := (x + 2147483648) % 4294967296 - 2147483648

/-! ## printf-style formatting -/

/-- Left-pad a digit string with `'0'` up to width `w`. -/
def padZeros (w : Nat) (ds : List Char) : List Char :=
  List.replicate (w - ds.length) '0' ++ ds

/-- The conversion `%0wd`: decimal, zero-padded to width `w`, the sign counted
in the width. -/
def fmtZeroPad (w : Nat) (v : Int) : List Char :=
  if v < 0 then '-' :: padZeros (w - 1) (Nat.toDigits 10 v.natAbs)
  else padZeros w (Nat.toDigits 10 v.toNat)

/-- The conversion `%d`. -/
def fmtInt (v : Int) : List Char :=
  if v < 0 then '-' :: Nat.toDigits 10 v.natAbs else Nat.toDigits 10 v.toNat

/-- What `snprintf(buf, size, ...)` leaves in `buf`: at most `size - 1`
characters of the formatted text. -/
def snprintf (size : Nat) (formatted : List Char) : String :=
  String.mk (formatted.take (size - 1))

/-! ## Data -/

/-- The fields of `struct tm` that the firmware reads.  Each is a C `int`, a
value in `-2^31 .. 2^31 - 1`. -/
structure Tm where
  tm_sec : Int
  tm_min : Int
  tm_hour : Int
  tm_mday : Int
  tm_mon : Int
  tm_year : Int
deriving DecidableEq

/-- An `RtcDateTime`, as the six arguments of its constructor call
`RtcDateTime(year, month, dayOfMonth, hour, minute, second)`. -/
structure RtcDateTime where
  Year : Int
  Month : Int
  Day : Int
  Hour : Int
  Minute : Int
  Second : Int
deriving DecidableEq

/-- The `SyncState` enumeration. -/
inductive SyncState where
  | SYNC_FAILED
  | SYNC_SUCCESS
deriving DecidableEq

/-- The display objects the firmware addresses. -/
inductive Widget where
  | ui_timeH | ui_timeM | ui_timeS | ui_timeColon
  | ui_day | ui_date
  | ui_RSSI | ui_wifiImage
  | ui_lastSyncTime | ui_rtcSynced | ui_rtcFailed
  | ui_brightnessBar
deriving DecidableEq

/-- The LVGL opacity constants used by the firmware. -/
inductive Opa where
  | LV_OPA_0 | LV_OPA_100 | LV_OPA_COVER
deriving DecidableEq

/-- One call into a library, as recorded in the log. -/
inductive Effect where
  | serialPrintln (msg : String)
  | lcdPrint (msg : String)
  | delay (ms : Nat)
  | configTime (gmtOffsetSec : Int) (dstOffsetSec : Int) (server : String)
  | rtcSetDateTime (dt : RtcDateTime)
  | labelSetText (w : Widget) (text : String)
  | setStyleOpa (w : Widget) (opa : Opa)
  | setImgRecolor (w : Widget) (color : Nat)
  | setImgRecolorOpa (w : Widget) (opa : Opa)
  | clearFlagHidden (w : Widget)
  | addFlagHidden (w : Widget)
  | barSetValue (w : Widget) (value : Int)
  | analogWriteBL (value : Int)
  | wifiReconnect
deriving DecidableEq

/-- Globals, function statics, the content of the clock chip, and the log of
library calls.  Pin levels: `true` is `HIGH`, `false` is `LOW`. -/
structure State where
  firstStart : Bool
  currentBrightnessIndex : Int
  currentBrightness : Int
  lastNTPSync : Nat
  rtcSyncState : SyncState
  lastResponseTime : String
  /-- Static of `updateTime`: `static unsigned long lastUpdate`. -/
  lastUpdate : Nat
  /-- Static of `updateTime`: `static bool colonVisible`. -/
  colonVisible : Bool
  /-- Static of `updateDate`: `static unsigned long lastDateUpdate`. -/
  lastDateUpdate : Nat
  /-- Static of `checkWiFiStatus`: `static unsigned long lastWiFiUpdate`. -/
  lastWiFiUpdate : Nat
  /-- Static of `checkWiFiStatus`: `static unsigned long lastReconnectAttempt`. -/
  lastReconnectAttempt : Nat
  /-- Static of `checkButtons`: `static bool lastBootBtnState`. -/
  lastBootBtnState : Bool
  /-- Static of `checkButtons`: `static bool lastKeyBtnState`. -/
  lastKeyBtnState : Bool
  /-- Static of `checkButtons`: `static unsigned long lastDebounceTime`. -/
  lastDebounceTime : Nat
  /-- The date-time held by the DS1302, as last written by `Rtc.SetDateTime`. -/
  rtc : RtcDateTime
  log : List Effect
deriving DecidableEq

/-- Record one library call. -/
def State.emit (s : State) (e : Effect) : State :=
  { s with log := s.log ++ [e] }

/-! ## Constants of `main.cpp` -/

def ntpServer : String := "pool.ntp.org"

def gmtOffset : Int := 2

def dstOffset : Int := 0

def brightnessLevels : List Int := [80, 120, 160, 200, 240]

/-- The array read `brightnessLevels[i]`.  An index outside the array (never
produced by `checkButtons`, see `checkButtons_index_in_bounds`) reads as 0. -/
def brightnessLevelsAt (i : Int) : Int :=
  if i < 0 then 0 else brightnessLevels.getD i.toNat 0

def debounceDelay : Nat := 20

def ntpSyncInterval : Nat := 3600000

/-- The values of the globals and statics at program start; the clock chip
holds `rtc0`. -/
def initialState (rtc0 : RtcDateTime) : State where
  firstStart := true
  currentBrightnessIndex := 2
  currentBrightness := brightnessLevelsAt 2
  lastNTPSync := 0
  rtcSyncState := SyncState.SYNC_FAILED
  lastResponseTime := "NEVER"
  lastUpdate := 0
  colonVisible := true
  lastDateUpdate := 0
  lastWiFiUpdate := 0
  lastReconnectAttempt := 0
  lastBootBtnState := true
  lastKeyBtnState := true
  lastDebounceTime := 0
  rtc := rtc0
  log := []

/-! ## `syncRTCWithNTP` -/

/-- The function `syncRTCWithNTP()`.  `fetch` is the outcome of `getLocalTime(&timeinfo,
10000)`: `none` when it returns false, otherwise the `timeinfo` it filled in.
Returns the function result and the state after the call.  The sums
`tm_year + 1900` and `tm_mon + 1` are `int` additions. -/
def syncRTCWithNTP (fetch : Option Tm) (s : State) : Bool × State :=
  let s1 := s.emit (Effect.configTime (gmtOffset * 3600) (dstOffset * 3600) ntpServer)
  match fetch with
  | none =>
    (false, s1.emit (Effect.serialPrintln "NTP sync failed - couldn't get local time"))
  | some timeinfo =>
    if timeinfo.tm_year < 120 then
      (false, s1.emit (Effect.serialPrintln "NTP sync failed - invalid year received"))
    else
      let ntpTime : RtcDateTime :=
        { Year := wrapInt (timeinfo.tm_year + 1900)
          Month := wrapInt (timeinfo.tm_mon + 1)
          Day := timeinfo.tm_mday
          Hour := timeinfo.tm_hour
          Minute := timeinfo.tm_min
          Second := timeinfo.tm_sec }
      let s2 := { s1 with rtc := ntpTime, log := s1.log ++ [Effect.rtcSetDateTime ntpTime] }
      let syncTimeStr := snprintf 9
        (fmtZeroPad 2 timeinfo.tm_hour ++ [':'] ++ fmtZeroPad 2 timeinfo.tm_min ++ [':']
          ++ fmtZeroPad 2 timeinfo.tm_sec)
      let s3 := { s2 with lastResponseTime := syncTimeStr }
      (true, s3.emit (Effect.serialPrintln "NTP sync successful"))

/-! ## `updateTime` and `updateDate` -/

/-- What the clock chip answers during one refresh: `Rtc.IsDateTimeValid()`,
`Rtc.GetDateTime()` and the `DayOfWeek()` of that reading. -/
structure RtcRead where
  valid : Bool
  now : RtcDateTime
  dayOfWeek : Nat
deriving DecidableEq

def updateInterval : Nat := 500

/-- The function `updateTime()`.  `tCheck` is the counter at the `millis()` of the guard,
`tStore` the counter at `lastUpdate = millis()`. -/
def updateTime (tCheck : Nat) (r : RtcRead) (tStore : Nat) (s : State) : State :=
  if wsub (millis tCheck) s.lastUpdate ≥ updateInterval then
    let s1 :=
      if r.valid then
        let hours := r.now.Hour
        let minutes := r.now.Minute
        let seconds := r.now.Second
        let sa := s.emit (Effect.labelSetText Widget.ui_timeH (snprintf 3 (fmtZeroPad 2 hours)))
        let sb := sa.emit (Effect.labelSetText Widget.ui_timeM (snprintf 3 (fmtZeroPad 2 minutes)))
        let sc := sb.emit (Effect.labelSetText Widget.ui_timeS (snprintf 3 (fmtZeroPad 2 seconds)))
        let sd := { sc with colonVisible := !sc.colonVisible }
        sd.emit (Effect.setStyleOpa Widget.ui_timeColon
          (if sd.colonVisible then Opa.LV_OPA_100 else Opa.LV_OPA_0))
      else
        let sa := s.emit (Effect.labelSetText Widget.ui_timeH "00")
        let sb := sa.emit (Effect.labelSetText Widget.ui_timeM "00")
        let sc := sb.emit (Effect.labelSetText Widget.ui_timeS "00")
        sc.emit (Effect.setStyleOpa Widget.ui_timeColon Opa.LV_OPA_100)
    { s1 with lastUpdate := millis tStore }
  else s

def daysOfWeek : List String := ["SUN.", "MON.", "TUE.", "WED.", "THU.", "FRI.", "SAT."]

/-- The function `getDayOfWeekString()`. -/
def getDayOfWeekString (r : RtcRead) : String := daysOfWeek.getD r.dayOfWeek ""

/-- The block that `updateDate` runs in both of its branches: set the day and
date labels from the clock, or the placeholders when the clock is not valid. -/
def refreshDateLabels (r : RtcRead) (s : State) : State :=
  if r.valid then
    let sa := s.emit (Effect.labelSetText Widget.ui_day (getDayOfWeekString r))
    sa.emit (Effect.labelSetText Widget.ui_date (snprintf 11
      (fmtZeroPad 2 r.now.Day ++ ['-'] ++ fmtZeroPad 2 r.now.Month ++ ['-']
        ++ fmtZeroPad 4 r.now.Year)))
  else
    let sa := s.emit (Effect.labelSetText Widget.ui_day "DAY.")
    sa.emit (Effect.labelSetText Widget.ui_date "DD-MM-YYYY")

def dateUpdateInterval : Nat := 1000

/-- The inputs of one `updateDate()` call, in source order. -/
structure DateEnv where
  /-- Clock answers in the first-start branch. -/
  rtcFirst : RtcRead
  /-- Counter at `lastDateUpdate = millis()` of the first-start branch. -/
  tFirst : Nat
  /-- Counter at the `millis()` of the interval guard. -/
  tCheck : Nat
  /-- Clock answers in the periodic branch. -/
  rtcSteady : RtcRead
  /-- Counter at `lastDateUpdate = millis()` of the periodic branch. -/
  tStore : Nat
deriving DecidableEq

/-- The function `updateDate()`. -/
def updateDate (env : DateEnv) (s : State) : State :=
  let s1 :=
    if s.firstStart then
      let sa := refreshDateLabels env.rtcFirst s
      { sa with lastDateUpdate := millis env.tFirst, firstStart := false }
    else s
  if wsub (millis env.tCheck) s1.lastDateUpdate ≥ dateUpdateInterval then
    let sb := refreshDateLabels env.rtcSteady s1
    { sb with lastDateUpdate := millis env.tStore }
  else s1

/-! ## `checkWiFiStatus` -/

def wifiUpdateInterval : Nat := 1000

/-- The inputs of one `checkWiFiStatus()` call, in source order. -/
structure WiFiEnv where
  /-- Counter at the `millis()` of the outer guard. -/
  tPoll : Nat
  /-- Whether `WiFi.status() == WL_CONNECTED`. -/
  connected : Bool
  /-- Result of `WiFi.RSSI()`. -/
  rssi : Int
  /-- Counter at the `millis()` of the inner guard: the sync guard when
  connected, the reconnect guard when not. -/
  tGate : Nat
  /-- Outcome of `getLocalTime` if `syncRTCWithNTP` is called. -/
  ntp : Option Tm
  /-- Counter at `lastNTPSync = millis()`, or at
  `lastReconnectAttempt = millis()`. -/
  tStamp : Nat
  /-- Counter at `lastWiFiUpdate = millis()`. -/
  tEnd : Nat
deriving DecidableEq

/-- The colour chosen for the Wi-Fi icon from the signal strength. -/
def wifiColorOf (rssi : Int) : Nat :=
  if rssi ≥ -50 then 0x00FF00
  else if rssi ≥ -60 then 0x7CFC00
  else if rssi ≥ -70 then 0xFFFF00
  else if rssi ≥ -80 then 0xFFA500
  else 0xFF0000

/-- The signal-strength display of the connected branch: RSSI label and icon
colour. -/
def showSignal (rssi : Int) (s : State) : State :=
  let sa := s.emit (Effect.labelSetText Widget.ui_RSSI
    (snprintf 10 (fmtInt rssi ++ " dBm".data)))
  let sb := sa.emit (Effect.setImgRecolor Widget.ui_wifiImage (wifiColorOf rssi))
  sb.emit (Effect.setImgRecolorOpa Widget.ui_wifiImage Opa.LV_OPA_COVER)

/-- The block under "Only attempt NTP sync if WiFi is connected". -/
def syncIfDue (env : WiFiEnv) (s : State) : State :=
  if wsub (millis env.tGate) s.lastNTPSync ≥ ntpSyncInterval then
    let res := syncRTCWithNTP env.ntp s
    if res.1 then
      let sd := { res.2 with lastNTPSync := millis env.tStamp,
                             rtcSyncState := SyncState.SYNC_SUCCESS }
      let se := sd.emit (Effect.labelSetText Widget.ui_lastSyncTime sd.lastResponseTime)
      let sf := se.emit (Effect.clearFlagHidden Widget.ui_rtcSynced)
      sf.emit (Effect.addFlagHidden Widget.ui_rtcFailed)
    else
      let sd := { res.2 with rtcSyncState := SyncState.SYNC_FAILED }
      let se := sd.emit (Effect.addFlagHidden Widget.ui_rtcSynced)
      se.emit (Effect.clearFlagHidden Widget.ui_rtcFailed)
  else s

/-- The display of the disconnected branch: black icon and "Disconnected". -/
def showDisconnected (s : State) : State :=
  let sa := s.emit (Effect.setImgRecolor Widget.ui_wifiImage 0x000000)
  let sb := sa.emit (Effect.setImgRecolorOpa Widget.ui_wifiImage Opa.LV_OPA_COVER)
  sb.emit (Effect.labelSetText Widget.ui_RSSI "Disconnected")

/-- The block under "Attempt to reconnect periodically". -/
def reconnectIfDue (env : WiFiEnv) (s : State) : State :=
  if wsub (millis env.tGate) s.lastReconnectAttempt ≥ 10000 then
    let sd := { s with lastReconnectAttempt := millis env.tStamp }
    sd.emit Effect.wifiReconnect
  else s

/-- The function `checkWiFiStatus()`. -/
def checkWiFiStatus (env : WiFiEnv) (s : State) : State :=
  if wsub (millis env.tPoll) s.lastWiFiUpdate ≥ wifiUpdateInterval then
    let s1 :=
      if env.connected then syncIfDue env (showSignal env.rssi s)
      else reconnectIfDue env (showDisconnected s)
    { s1 with lastWiFiUpdate := millis env.tEnd }
  else s

/-! ## `checkButtons` -/

/-- The inputs of one `checkButtons()` call, in source order. -/
structure ButtonEnv where
  /-- Level from `digitalRead(bootBTN)`; `false` is `LOW` (pressed). -/
  bootBtnState : Bool
  /-- Level from `digitalRead(keyBTN)`; `false` is `LOW` (pressed). -/
  keyBtnState : Bool
  /-- Counter at the `millis()` of the debounce guard. -/
  tCheck : Nat
  /-- Counter at `lastDebounceTime = millis()`. -/
  tStamp : Nat
deriving DecidableEq

/-- The block under "Boot button pressed - decrease brightness". -/
def decreaseBrightness (s : State) : State :=
  if s.currentBrightnessIndex > 0 then
    let sa := { s with currentBrightnessIndex := s.currentBrightnessIndex - 1 }
    let sb := { sa with currentBrightness := brightnessLevelsAt sa.currentBrightnessIndex }
    sb.emit (Effect.analogWriteBL sb.currentBrightness)
  else s

/-- The block under "Key button pressed - increase brightness".  The bound
`sizeof(brightnessLevels)/sizeof(brightnessLevels[0]) - 1` has type `size_t`,
so the `int` index is converted to unsigned 32 bits for the comparison. -/
def increaseBrightness (s : State) : State :=
  if (s.currentBrightnessIndex % 4294967296) < ((brightnessLevels.length : Int) - 1) then
    let sa := { s with currentBrightnessIndex := s.currentBrightnessIndex + 1 }
    let sb := { sa with currentBrightness := brightnessLevelsAt sa.currentBrightnessIndex }
    sb.emit (Effect.analogWriteBL sb.currentBrightness)
  else s

/-- The condition of the outer `if` of `checkButtons`: a falling edge on either
button at this poll. -/
def fallingEdge (env : ButtonEnv) (s : State) : Bool :=
  (env.bootBtnState == false && s.lastBootBtnState == true) ||
  (env.keyBtnState == false && s.lastKeyBtnState == true)

/-- The body of the debounce `if` of `checkButtons`: the two press blocks, then
`lastDebounceTime = millis()`. -/
def applyPresses (env : ButtonEnv) (s : State) : State :=
  let sa := if env.bootBtnState == false then decreaseBrightness s else s
  let sb := if env.keyBtnState == false then increaseBrightness sa else sa
  { sb with lastDebounceTime := millis env.tStamp }

/-- The tail of `checkButtons`: remember the levels and update the brightness
bar. -/
def finishPoll (env : ButtonEnv) (s : State) : State :=
  let s2 := { s with lastBootBtnState := env.bootBtnState,
                     lastKeyBtnState := env.keyBtnState }
  s2.emit (Effect.barSetValue Widget.ui_brightnessBar s2.currentBrightness)

/-- The function `checkButtons()`. -/
def checkButtons (env : ButtonEnv) (s : State) : State :=
  let s1 :=
    if fallingEdge env s then
      if wsub (millis env.tCheck) s.lastDebounceTime > debounceDelay then
        applyPresses env s
      else s
    else s
  finishPoll env s1

/-- A run of `checkButtons()` calls, one per element of `envs`. -/
def runButtons (envs : List ButtonEnv) (s : State) : State :=
  envs.foldl (fun st env => checkButtons env st) s

/-! ## The initial sync of `setup` -/

def maxRetries : Nat := 3

/-- The inputs of the initial-sync part of `setup()`. -/
structure BootEnv where
  /-- Outcome of `getLocalTime` in the attempt made with `retryCount = k`. -/
  ntp : Nat → Option Tm
  /-- Counter at `lastNTPSync = millis()`. -/
  tSync : Nat
  /-- The value of `RtcDateTime(__DATE__, __TIME__)`. -/
  compiled : RtcDateTime

/-- The loop `while (!syncSuccess && retryCount < maxRetries)` of `setup()`,
from the loop variables and state at its head to those at its exit. -/
def initialSyncLoop (env : BootEnv) (syncSuccess : Bool) (retryCount : Nat) (s : State) :
    Bool × Nat × State :=
  if !syncSuccess && decide (retryCount < maxRetries) then
    let s1 := s.emit (Effect.lcdPrint (String.mk
      ("Attempt ".data ++ fmtInt (retryCount + 1) ++ " of ".data ++ fmtInt maxRetries ++ ['\n'])))
    let res := syncRTCWithNTP (env.ntp retryCount) s1
    if res.1 then
      let sa := { res.2 with rtcSyncState := SyncState.SYNC_SUCCESS }
      let sb := sa.emit (Effect.lcdPrint "NTP sync successful!\n\n")
      initialSyncLoop env true retryCount { sb with lastNTPSync := millis env.tSync }
    else
      initialSyncLoop env false (retryCount + 1) (res.2.emit (Effect.delay 5000))
  else (syncSuccess, retryCount, s)
termination_by (if syncSuccess then 0 else 1) + (maxRetries - retryCount)
decreasing_by
  all_goals simp_wf
  all_goals simp_all
  all_goals omega

/-- The part of `setup()` from "Attempt to sync RTC with NTP server" to the
fallback on the compiled time. -/
def setupInitialSync (env : BootEnv) (s : State) : State :=
  let s0 := s.emit (Effect.lcdPrint "Attempting initial NTP sync...\n\n")
  let r := initialSyncLoop env false 0 s0
  let syncSuccess := r.1
  let s1 := r.2.2
  if !syncSuccess then
    let sa := { s1 with rtcSyncState := SyncState.SYNC_FAILED, lastResponseTime := "compiled" }
    let sb := sa.emit (Effect.lcdPrint "Failed to sync with NTP server\n\n")
    let sc := sb.emit (Effect.lcdPrint "Using compiled time\n\n")
    let compiled := env.compiled
    { sc with rtc := compiled, log := sc.log ++ [Effect.rtcSetDateTime compiled] }
  else s1

/-- A run of `checkWiFiStatus()` calls, one per element of `envs`. -/
def runWiFi (envs : List WiFiEnv) (s : State) : State :=
  envs.foldl (fun st env => checkWiFiStatus env st) s

/-! ## Vocabulary for the statements -/

/-- Whether a fetch outcome makes `syncRTCWithNTP` fail: a timeout, or a year
below 2020. -/
def fetchFails (fetch : Option Tm) : Bool :=
  match fetch with
  | none => true
  | some tm => decide (tm.tm_year < 120)

/-- The `RtcDateTime` built from a fetched `struct tm`, the two sums taken in
`int`. -/
def ntpTimeOf (tm : Tm) : RtcDateTime :=
  { Year := wrapInt (tm.tm_year + 1900), Month := wrapInt (tm.tm_mon + 1), Day := tm.tm_mday,
    Hour := tm.tm_hour, Minute := tm.tm_min, Second := tm.tm_sec }

/-- The text `%02d:%02d:%02d` of a fetched `struct tm`, cut to the 9-byte
buffer. -/
def syncTimeStrOf (tm : Tm) : String :=
  snprintf 9 (fmtZeroPad 2 tm.tm_hour ++ [':'] ++ fmtZeroPad 2 tm.tm_min ++ [':']
    ++ fmtZeroPad 2 tm.tm_sec)

/-- Number of `syncRTCWithNTP` calls in a log: each call starts with its
`configTime`. -/
def syncAttempts (l : List Effect) : Nat :=
  l.countP (fun e => match e with | Effect.configTime _ _ _ => true | _ => false)

/-- Number of `Rtc.SetDateTime` calls in a log. -/
def rtcWrites (l : List Effect) : Nat :=
  l.countP (fun e => match e with | Effect.rtcSetDateTime _ => true | _ => false)

/-- Number of `WiFi.reconnect()` calls in a log. -/
def reconnectRequests (l : List Effect) : Nat :=
  l.countP (fun e => match e with | Effect.wifiReconnect => true | _ => false)

/-- The two decimal digits of `n` (for `n < 100`), tens first: what a
zero-padded two-digit field shows. -/
def twoDigits (n : Nat) : List Char :=
  [Char.ofNat (48 + n / 10), Char.ofNat (48 + n % 10)]

/-- The text `hh:mm:ss`, each field two zero-padded digits. -/
def hhmmss (h m sec : Nat) : String :=
  String.mk (twoDigits h ++ [':'] ++ twoDigits m ++ [':'] ++ twoDigits sec)

/-- The times of the reconnect requests issued during a run of
`checkWiFiStatus` calls: for each call that adds a `WiFi.reconnect()` to the
log, the reading stored in `lastReconnectAttempt` just before that call. -/
def reconnectTimes : List WiFiEnv → State → List Nat
  | [], _ => []
  | env :: rest, s =>
    if reconnectRequests (checkWiFiStatus env s).log ≠ reconnectRequests s.log then
      millis env.tStamp :: reconnectTimes rest (checkWiFiStatus env s)
    else reconnectTimes rest (checkWiFiStatus env s)

/-- The counter values of a run of `checkWiFiStatus` calls never decrease, from
`t0` on, within each call and from one call to the next, and stay below `2^32`
(the counter does not wrap). -/
def MonotoneTicks : Nat → List WiFiEnv → Prop
  | _, [] => True
  | t0, env :: rest =>
    t0 ≤ env.tPoll ∧ env.tPoll ≤ env.tGate ∧ env.tGate ≤ env.tStamp ∧
    env.tStamp ≤ env.tEnd ∧ env.tEnd < U32 ∧ MonotoneTicks env.tEnd rest

/-! ## Concrete inputs used in the worked instances -/

/-- A state in steady operation: first start done, last sync and last polls at
counter 0, the chip holding 2024-01-01 00:00:00. -/
def steadyState : State :=
  { initialState ⟨2024, 1, 1, 0, 0, 0⟩ with firstStart := false }

/-- The fetched time 2024-06-01 10:30:00 as a `struct tm`. -/
def tmJune : Tm :=
  { tm_sec := 0, tm_min := 30, tm_hour := 10, tm_mday := 1, tm_mon := 5, tm_year := 124 }

/-- A tick one hour after start, Wi-Fi connected, the fetch answering
2024-06-01 10:30:00 after 50 ms. -/
def tickSyncOk : WiFiEnv :=
  { tPoll := 3600000, connected := true, rssi := -55, tGate := 3600000,
    ntp := some tmJune, tStamp := 3600050, tEnd := 3600050 }

/-- A tick one hour after start, Wi-Fi connected, the fetch timing out after
10 s. -/
def tickSyncTimeout : WiFiEnv :=
  { tPoll := 3600000, connected := true, rssi := -55, tGate := 3600000,
    ntp := none, tStamp := 3610000, tEnd := 3610000 }

/-- The tick 1000 ms after the end of `tickSyncTimeout`, the fetch timing out
again. -/
def tickAfterTimeout : WiFiEnv :=
  { tPoll := 3611000, connected := true, rssi := -55, tGate := 3611000,
    ntp := none, tStamp := 3621000, tEnd := 3621000 }

/-- The invariant on the brightness variables: the index is within the table and
`currentBrightness` is the table entry at the index. -/
def BrightnessOk (s : State) : Prop :=
  0 ≤ s.currentBrightnessIndex ∧ s.currentBrightnessIndex ≤ 4 ∧
  s.currentBrightness = brightnessLevelsAt s.currentBrightnessIndex

/-- A state at brightness index 2 in which the boot (decrease) button was
already low at the previous poll and the key button was high. -/
def bootHeldState : State :=
  { steadyState with lastBootBtnState := false }

/-- A poll at counter 1000 in which both buttons read low. -/
def pollBothLow : ButtonEnv :=
  { bootBtnState := false, keyBtnState := false, tCheck := 1000, tStamp := 1000 }

/-- A poll at counter 1000 with the boot button low and the key button high. -/
def pollBootLow : ButtonEnv :=
  { bootBtnState := false, keyBtnState := true, tCheck := 1000, tStamp := 1000 }

/-- Three polls inside the 20 ms after counter 1000: both buttons high at 1005
(the boot contact bounces open), boot low again at 1012 (a second falling edge
on the same button), then key low as well at 1015 (a falling edge on the other
button). -/
def pollsBounce : List ButtonEnv :=
  [{ bootBtnState := true, keyBtnState := true, tCheck := 1005, tStamp := 1005 },
   { bootBtnState := false, keyBtnState := true, tCheck := 1012, tStamp := 1012 },
   { bootBtnState := false, keyBtnState := false, tCheck := 1015, tStamp := 1015 }]

/-- A state at brightness index 0 (brightness 80), both buttons high at the
previous poll. -/
def dimmestState : State :=
  { steadyState with currentBrightnessIndex := 0, currentBrightness := 80 }

/-- A state at brightness index 4 (brightness 240), both buttons high at the
previous poll. -/
def brightestState : State :=
  { steadyState with currentBrightnessIndex := 4, currentBrightness := 240 }

/-- A poll at counter 1000 with the boot button high and the key button low. -/
def pollKeyLow : ButtonEnv :=
  { bootBtnState := true, keyBtnState := false, tCheck := 1000, tStamp := 1000 }

/-- Startup inputs in which the first fetch times out and the second answers
2024-06-01 10:30:00; the build timestamp is 2023-11-05 12:00:00. -/
def bootSecondOk : BootEnv :=
  { ntp := fun k => if k = 1 then some tmJune else none, tSync := 25000,
    compiled := ⟨2023, 11, 5, 12, 0, 0⟩ }

/-- Startup inputs in which every fetch times out; the build timestamp is
2023-11-05 12:00:00. -/
def bootAllFail : BootEnv :=
  { ntp := fun _ => none, tSync := 25000, compiled := ⟨2023, 11, 5, 12, 0, 0⟩ }

/-- A disconnected tick whose four counter readings are all `t`. -/
def tickDown (t : Nat) : WiFiEnv :=
  { tPoll := t, connected := false, rssi := 0, tGate := t, ntp := none, tStamp := t, tEnd := t }

/-- Disconnected ticks at 10 s, 15 s, 19.999 s and 21 s after start. -/
def ticksDown : List WiFiEnv :=
  [tickDown 10000, tickDown 15000, tickDown 19999, tickDown 21000]

/-- A steady state whose three task timers last ran 296 ms before the counter
wraps. -/
def nearWrapState : State :=
  { steadyState with lastUpdate := 4294967000, lastDateUpdate := 4294967000,
                     lastWiFiUpdate := 4294967000 }

/-- A valid clock reading of 2024-06-01 10:30:00, a Saturday. -/
def rtcJune : RtcRead :=
  { valid := true, now := ⟨2024, 6, 1, 10, 30, 0⟩, dayOfWeek := 6 }

/-- An `updateDate` call whose guard and store both read the counter 600 ms
after `nearWrapState`'s last run, past the wrap. -/
def dateAfterWrap : DateEnv :=
  { rtcFirst := rtcJune, tFirst := 4294967600, tCheck := 4294967600, rtcSteady := rtcJune,
    tStore := 4294967600 }

/-- A disconnected `checkWiFiStatus` call whose reads all see the counter
600 ms after `nearWrapState`'s last run, past the wrap. -/
def wifiAfterWrap : WiFiEnv :=
  tickDown 4294967600

/-- The fetched time of `tmJune` with `tm_year` at the largest `int`, so that
`tm_year + 1900` is the year 2147485547. -/
def tmYearMax : Tm :=
  { tmJune with tm_year := 2147483647 }

/-- The tick of `tickSyncOk` with the fetch answering `tmYearMax`. -/
def tickSyncYearMax : WiFiEnv :=
  { tickSyncOk with ntp := some tmYearMax }

/-! ## Lemmas on the wrapping difference -/

/-- When the true elapsed time `e` is below `2^32`, the wrapping difference
between the reading at `L + e` and the stored `L` is `e`. -/
theorem wsub_millis_add (L e : Nat) (he : e < U32) : wsub (millis (L + e)) L = e := by
  simp only [wsub, millis, U32] at *
  omega

theorem log_append_ne (l : List Effect) (e : Effect) (r : List Effect) : l ++ e :: r ≠ l := by
  intro h
  have := congrArg List.length h
  simp at this

theorem updateTime_fire (tCheck : Nat) (r : RtcRead) (tStore : Nat) (s : State)
    (h : updateInterval ≤ wsub (millis tCheck) s.lastUpdate) :
    (updateTime tCheck r tStore s).lastUpdate = millis tStore ∧
    (updateTime tCheck r tStore s).log ≠ s.log := by
  unfold updateTime
  rw [if_pos h]
  cases hv : r.valid <;> simp [State.emit, log_append_ne]

theorem updateTime_skip (tCheck : Nat) (r : RtcRead) (tStore : Nat) (s : State)
    (h : wsub (millis tCheck) s.lastUpdate < updateInterval) :
    updateTime tCheck r tStore s = s := by
  unfold updateTime
  rw [if_neg (by omega)]

theorem updateDate_fire (env : DateEnv) (s : State) (hfs : s.firstStart = false)
    (h : dateUpdateInterval ≤ wsub (millis env.tCheck) s.lastDateUpdate) :
    (updateDate env s).lastDateUpdate = millis env.tStore ∧
    (updateDate env s).log ≠ s.log := by
  unfold updateDate
  simp only [hfs, Bool.false_eq_true, if_false]
  rw [if_pos h]
  unfold refreshDateLabels
  cases hv : env.rtcSteady.valid <;> simp [State.emit, log_append_ne]

theorem updateDate_skip (env : DateEnv) (s : State) (hfs : s.firstStart = false)
    (h : wsub (millis env.tCheck) s.lastDateUpdate < dateUpdateInterval) :
    updateDate env s = s := by
  unfold updateDate
  simp only [hfs, Bool.false_eq_true, if_false]
  rw [if_neg (by omega)]

/-! ## Lemmas on `syncRTCWithNTP` -/

theorem syncRTCWithNTP_fail (fetch : Option Tm) (s : State) (h : fetchFails fetch = true) :
    ∃ msg, syncRTCWithNTP fetch s = (false,
      { s with log := s.log ++ [Effect.configTime (gmtOffset * 3600) (dstOffset * 3600) ntpServer,
                                Effect.serialPrintln msg] }) := by
  unfold syncRTCWithNTP
  cases fetch with
  | none => exact ⟨"NTP sync failed - couldn't get local time", by simp [State.emit]⟩
  | some tm =>
    have hy : tm.tm_year < 120 := by simpa [fetchFails] using h
    exact ⟨"NTP sync failed - invalid year received", by simp [State.emit, hy]⟩

theorem syncRTCWithNTP_ok (tm : Tm) (s : State) (h : 120 ≤ tm.tm_year) :
    syncRTCWithNTP (some tm) s = (true,
      { s with rtc := ntpTimeOf tm, lastResponseTime := syncTimeStrOf tm,
               log := s.log ++ [Effect.configTime (gmtOffset * 3600) (dstOffset * 3600) ntpServer,
                                Effect.rtcSetDateTime (ntpTimeOf tm),
                                Effect.serialPrintln "NTP sync successful"] }) := by
  unfold syncRTCWithNTP
  have hy : ¬ tm.tm_year < 120 := by omega
  simp [State.emit, hy, ntpTimeOf, syncTimeStrOf]

theorem fetchFails_false (fetch : Option Tm) (h : fetchFails fetch = false) :
    ∃ tm, fetch = some tm ∧ 120 ≤ tm.tm_year := by
  cases fetch with
  | none => simp [fetchFails] at h
  | some tm => exact ⟨tm, rfl, by simpa [fetchFails] using h⟩

theorem syncIfDue_log_length (env : WiFiEnv) (s : State) :
    s.log.length ≤ (syncIfDue env s).log.length := by
  unfold syncIfDue
  split
  · cases hf : fetchFails env.ntp
    · obtain ⟨tm, htm, hy⟩ := fetchFails_false _ hf
      rw [htm, syncRTCWithNTP_ok tm s hy]
      simp [State.emit]
    · obtain ⟨msg, hm⟩ := syncRTCWithNTP_fail env.ntp s hf
      rw [hm]
      simp [State.emit]
  · exact le_refl _

theorem reconnectIfDue_log_length (env : WiFiEnv) (s : State) :
    s.log.length ≤ (reconnectIfDue env s).log.length := by
  unfold reconnectIfDue
  split <;> simp [State.emit]

theorem checkWiFiStatus_fire (env : WiFiEnv) (s : State)
    (h : wifiUpdateInterval ≤ wsub (millis env.tPoll) s.lastWiFiUpdate) :
    (checkWiFiStatus env s).lastWiFiUpdate = millis env.tEnd ∧
    (checkWiFiStatus env s).log ≠ s.log := by
  unfold checkWiFiStatus
  rw [if_pos h]
  refine ⟨rfl, ?_⟩
  intro hlog
  have hlen := congrArg List.length hlog
  cases hc : env.connected
  · have h1 := reconnectIfDue_log_length env (showDisconnected s)
    simp [hc, showDisconnected, State.emit] at hlen h1
    omega
  · have h1 := syncIfDue_log_length env (showSignal env.rssi s)
    simp [hc, showSignal, State.emit] at hlen h1
    omega

theorem checkWiFiStatus_skip (env : WiFiEnv) (s : State)
    (h : wsub (millis env.tPoll) s.lastWiFiUpdate < wifiUpdateInterval) :
    checkWiFiStatus env s = s := by
  unfold checkWiFiStatus
  rw [if_neg (by omega)]

theorem syncIfDue_skip (env : WiFiEnv) (s : State)
    (h : wsub (millis env.tGate) s.lastNTPSync < ntpSyncInterval) : syncIfDue env s = s := by
  unfold syncIfDue
  rw [if_neg (by omega)]

theorem syncIfDue_ok (env : WiFiEnv) (s : State) (tm : Tm)
    (h : ntpSyncInterval ≤ wsub (millis env.tGate) s.lastNTPSync)
    (hf : env.ntp = some tm) (hy : 120 ≤ tm.tm_year) :
    syncIfDue env s =
      { s with rtc := ntpTimeOf tm, lastResponseTime := syncTimeStrOf tm,
               lastNTPSync := millis env.tStamp, rtcSyncState := SyncState.SYNC_SUCCESS,
               log := s.log ++ [Effect.configTime (gmtOffset * 3600) (dstOffset * 3600) ntpServer,
                                Effect.rtcSetDateTime (ntpTimeOf tm),
                                Effect.serialPrintln "NTP sync successful",
                                Effect.labelSetText Widget.ui_lastSyncTime (syncTimeStrOf tm),
                                Effect.clearFlagHidden Widget.ui_rtcSynced,
                                Effect.addFlagHidden Widget.ui_rtcFailed] } := by
  unfold syncIfDue
  rw [if_pos h, hf, syncRTCWithNTP_ok tm s hy]
  simp [State.emit]

theorem syncIfDue_fail (env : WiFiEnv) (s : State)
    (h : ntpSyncInterval ≤ wsub (millis env.tGate) s.lastNTPSync)
    (hf : fetchFails env.ntp = true) :
    ∃ msg, syncIfDue env s =
      { s with rtcSyncState := SyncState.SYNC_FAILED,
               log := s.log ++ [Effect.configTime (gmtOffset * 3600) (dstOffset * 3600) ntpServer,
                                Effect.serialPrintln msg,
                                Effect.addFlagHidden Widget.ui_rtcSynced,
                                Effect.clearFlagHidden Widget.ui_rtcFailed] } := by
  obtain ⟨msg, hm⟩ := syncRTCWithNTP_fail env.ntp s hf
  refine ⟨msg, ?_⟩
  unfold syncIfDue
  rw [if_pos h, hm]
  simp [State.emit]

theorem checkWiFiStatus_connected (env : WiFiEnv) (s : State)
    (h : wifiUpdateInterval ≤ wsub (millis env.tPoll) s.lastWiFiUpdate)
    (hc : env.connected = true) :
    checkWiFiStatus env s =
      { syncIfDue env (showSignal env.rssi s) with lastWiFiUpdate := millis env.tEnd } := by
  unfold checkWiFiStatus
  rw [if_pos h]
  simp [hc]

theorem checkWiFiStatus_disconnected (env : WiFiEnv) (s : State)
    (h : wifiUpdateInterval ≤ wsub (millis env.tPoll) s.lastWiFiUpdate)
    (hc : env.connected = false) :
    checkWiFiStatus env s =
      { reconnectIfDue env (showDisconnected s) with lastWiFiUpdate := millis env.tEnd } := by
  unfold checkWiFiStatus
  rw [if_pos h]
  simp [hc]

theorem syncAttempts_append (l r : List Effect) :
    syncAttempts (l ++ r) = syncAttempts l + syncAttempts r := by
  simp [syncAttempts]

theorem rtcWrites_append (l r : List Effect) :
    rtcWrites (l ++ r) = rtcWrites l + rtcWrites r := by
  simp [rtcWrites]

theorem reconnectRequests_append (l r : List Effect) :
    reconnectRequests (l ++ r) = reconnectRequests l + reconnectRequests r := by
  simp [reconnectRequests]

/-! ## C3: the year check of `syncRTCWithNTP` -/

/-- C3: a fetched time with `tm_year < 120` (year below 2020) makes
`syncRTCWithNTP` return false without any `Rtc.SetDateTime` call, the clock
content and `lastResponseTime` staying as they were; a fetched time with
`tm_year >= 120` is accepted (the function returns true). -/
theorem syncRTCWithNTP_year_check (tm : Tm) (s : State) :
    (tm.tm_year < 120 →
      (syncRTCWithNTP (some tm) s).1 = false ∧
      (syncRTCWithNTP (some tm) s).2.rtc = s.rtc ∧
      rtcWrites (syncRTCWithNTP (some tm) s).2.log = rtcWrites s.log ∧
      (syncRTCWithNTP (some tm) s).2.lastResponseTime = s.lastResponseTime) ∧
    (120 ≤ tm.tm_year → (syncRTCWithNTP (some tm) s).1 = true) := by
  constructor
  · intro hy
    obtain ⟨msg, hm⟩ := syncRTCWithNTP_fail (some tm) s (by simpa [fetchFails] using hy)
    rw [hm]
    simp [rtcWrites]
  · intro hy
    rw [syncRTCWithNTP_ok tm s hy]

/-! ## C1: interval gates are wrap-safe -/

/-- C1 as stated fails: the stored last-run is not the `now` of the guard but a
second `millis()` read taken after the body.  From last-run 0 with elapsed time
1500 the guard of `updateTime` reads now = 1500 and the body runs, yet with the
counter at 1503 at the store `lastUpdate` becomes 1503; in the tick of
`tickSyncTimeout` the guard of `checkWiFiStatus` reads 3,600,000 and, the fetch
having blocked for 10 s, `lastWiFiUpdate` becomes 3,610,000. -/
theorem last_run_is_later_reading :
    (steadyState.lastUpdate + 1500) % 2 ^ 32 = 1500 ∧
    (updateTime (steadyState.lastUpdate + 1500) rtcJune 1503 steadyState).log
      ≠ steadyState.log ∧
    (updateTime (steadyState.lastUpdate + 1500) rtcJune 1503 steadyState).lastUpdate = 1503 ∧
    (updateTime (steadyState.lastUpdate + 1500) rtcJune 1503 steadyState).lastUpdate
      ≠ (steadyState.lastUpdate + 1500) % 2 ^ 32 ∧
    millis tickSyncTimeout.tPoll = (steadyState.lastWiFiUpdate + 3600000) % 2 ^ 32 ∧
    (checkWiFiStatus tickSyncTimeout steadyState).log ≠ steadyState.log ∧
    (checkWiFiStatus tickSyncTimeout steadyState).lastWiFiUpdate = 3610000 ∧
    (checkWiFiStatus tickSyncTimeout steadyState).lastWiFiUpdate
      ≠ (steadyState.lastWiFiUpdate + 3600000) % 2 ^ 32 := by
  decide

/-- C1, amended: for each interval-gated task (`updateTime`, 500 ms; the
periodic branch of `updateDate`, 1000 ms, once `firstStart` is false;
`checkWiFiStatus`, 1000 ms), for every stored last-run value `L` and every true
elapsed time `e < 2^32`, when the counter stands at `L + e` at the guard (so its
`millis()` reads `(L + e) mod 2^32`, wrapped or not) the body runs (the log of
library calls grows) iff `e` is at least the interval; when it runs, the
last-run becomes the value of the second `millis()` read, taken after the body;
when it does not run, nothing changes. -/
theorem interval_gates_wrap_safe (s : State) (e : Nat) (he : e < U32)
    (r : RtcRead) (tStore : Nat) (d : DateEnv) (w : WiFiEnv)
    (hd : d.tCheck = s.lastDateUpdate + e) (hw : w.tPoll = s.lastWiFiUpdate + e) :
    (((updateTime (s.lastUpdate + e) r tStore s).log ≠ s.log ↔ 500 ≤ e) ∧
      (500 ≤ e → (updateTime (s.lastUpdate + e) r tStore s).lastUpdate = millis tStore) ∧
      (e < 500 → updateTime (s.lastUpdate + e) r tStore s = s)) ∧
    (s.firstStart = false →
      ((updateDate d s).log ≠ s.log ↔ 1000 ≤ e) ∧
      (1000 ≤ e → (updateDate d s).lastDateUpdate = millis d.tStore) ∧
      (e < 1000 → updateDate d s = s)) ∧
    (((checkWiFiStatus w s).log ≠ s.log ↔ 1000 ≤ e) ∧
      (1000 ≤ e → (checkWiFiStatus w s).lastWiFiUpdate = millis w.tEnd) ∧
      (e < 1000 → checkWiFiStatus w s = s)) := by
  have h1 := wsub_millis_add s.lastUpdate e he
  have h2 := wsub_millis_add s.lastDateUpdate e he
  have h3 := wsub_millis_add s.lastWiFiUpdate e he
  rw [← hd] at h2
  rw [← hw] at h3
  refine ⟨⟨⟨fun hne => ?_, fun hge => ?_⟩, fun hge => ?_, fun hlt => ?_⟩,
    fun hfs => ⟨⟨fun hne => ?_, fun hge => ?_⟩, fun hge => ?_, fun hlt => ?_⟩,
    ⟨⟨fun hne => ?_, fun hge => ?_⟩, fun hge => ?_, fun hlt => ?_⟩⟩
  · by_contra hlt
    exact hne (congrArg State.log
      (updateTime_skip _ r tStore s (by rw [h1]; simp only [updateInterval]; omega)))
  · exact (updateTime_fire _ r tStore s (by rw [h1]; exact hge)).2
  · exact (updateTime_fire _ r tStore s (by rw [h1]; exact hge)).1
  · exact updateTime_skip _ r tStore s (by rw [h1]; exact hlt)
  · by_contra hlt
    exact hne (congrArg State.log
      (updateDate_skip d s hfs (by rw [h2]; simp only [dateUpdateInterval]; omega)))
  · exact (updateDate_fire d s hfs (by rw [h2]; exact hge)).2
  · exact (updateDate_fire d s hfs (by rw [h2]; exact hge)).1
  · exact updateDate_skip d s hfs (by rw [h2]; exact hlt)
  · by_contra hlt
    exact hne (congrArg State.log
      (checkWiFiStatus_skip w s (by rw [h3]; simp only [wifiUpdateInterval]; omega)))
  · exact (checkWiFiStatus_fire w s (by rw [h3]; exact hge)).2
  · exact (checkWiFiStatus_fire w s (by rw [h3]; exact hge)).1
  · exact checkWiFiStatus_skip w s (by rw [h3]; exact hlt)

/-! ## C4: a successful steady-state sync -/

theorem padZeros_two (n : Nat) (h : n < 100) :
    padZeros 2 (Nat.toDigits 10 n) = twoDigits n := by
  interval_cases n <;> rfl

theorem fmtZeroPad_two (v : Int) (h0 : 0 ≤ v) (h1 : v < 100) :
    fmtZeroPad 2 v = twoDigits v.toNat := by
  unfold fmtZeroPad
  rw [if_neg (by omega)]
  exact padZeros_two v.toNat (by omega)

theorem syncTimeStrOf_eq (tm : Tm)
    (hh0 : 0 ≤ tm.tm_hour) (hh1 : tm.tm_hour ≤ 23)
    (hm0 : 0 ≤ tm.tm_min) (hm1 : tm.tm_min ≤ 59)
    (hs0 : 0 ≤ tm.tm_sec) (hs1 : tm.tm_sec ≤ 59) :
    syncTimeStrOf tm = hhmmss tm.tm_hour.toNat tm.tm_min.toNat tm.tm_sec.toNat := by
  unfold syncTimeStrOf hhmmss snprintf
  rw [fmtZeroPad_two _ hh0 (by omega), fmtZeroPad_two _ hm0 (by omega),
    fmtZeroPad_two _ hs0 (by omega)]
  rfl

theorem wrapInt_of_range (x : Int) (h0 : -2147483648 ≤ x) (h1 : x ≤ 2147483647) :
    wrapInt x = x := by
  unfold wrapInt
  omega

/-- C4 as stated fails for years beyond the `int` range: with the fetch
answering `tm_year = 2147483647`, that is Y = 2147485547 >= 2020, at 10:30:00,
the `int` sum `tm_year + 1900` wraps and the clock is written with the year
-2147481749, not Y. -/
theorem sync_year_beyond_int_range :
    2020 ≤ tmYearMax.tm_year + 1900 ∧
    tmYearMax.tm_year + 1900 = 2147485547 ∧
    (checkWiFiStatus tickSyncYearMax steadyState).rtcSyncState = SyncState.SYNC_SUCCESS ∧
    (checkWiFiStatus tickSyncYearMax steadyState).rtc.Year = -2147481749 ∧
    (checkWiFiStatus tickSyncYearMax steadyState).rtc
      ≠ { Year := tmYearMax.tm_year + 1900, Month := tmYearMax.tm_mon + 1,
          Day := tmYearMax.tm_mday, Hour := tmYearMax.tm_hour, Minute := tmYearMax.tm_min,
          Second := tmYearMax.tm_sec } := by
  decide

/-- C4, amended: in a `checkWiFiStatus` tick where the poll fires, Wi-Fi is
connected, the sync interval has elapsed and the fetch returns a time whose
year Y = tm_year + 1900 satisfies 2020 <= Y <= 2147483647 and whose month
M = tm_mon + 1 lies in the `int` range (neither sum overflows), with hour
0..23, minute 0..59 and second 0..59, the clock is written once with
(Y, M, tm_mday, hour, minute, second), the sync state is `SYNC_SUCCESS`,
`lastNTPSync` is the reading taken after the attempt, and `lastResponseTime` is
the 8-character zero-padded `hh:mm:ss`. -/
theorem steady_sync_success (env : WiFiEnv) (s : State) (tm : Tm)
    (hpoll : 1000 ≤ wsub (millis env.tPoll) s.lastWiFiUpdate)
    (hconn : env.connected = true)
    (hdue : 3600000 ≤ wsub (millis env.tGate) s.lastNTPSync)
    (hfetch : env.ntp = some tm)
    (hyear : 2020 ≤ tm.tm_year + 1900) (hyearInt : tm.tm_year + 1900 ≤ 2147483647)
    (hmon0 : -2147483648 ≤ tm.tm_mon + 1) (hmon1 : tm.tm_mon + 1 ≤ 2147483647)
    (hh0 : 0 ≤ tm.tm_hour) (hh1 : tm.tm_hour ≤ 23)
    (hm0 : 0 ≤ tm.tm_min) (hm1 : tm.tm_min ≤ 59)
    (hs0 : 0 ≤ tm.tm_sec) (hs1 : tm.tm_sec ≤ 59) :
    (checkWiFiStatus env s).rtc
      = { Year := tm.tm_year + 1900, Month := tm.tm_mon + 1, Day := tm.tm_mday,
          Hour := tm.tm_hour, Minute := tm.tm_min, Second := tm.tm_sec } ∧
    rtcWrites (checkWiFiStatus env s).log = rtcWrites s.log + 1 ∧
    (checkWiFiStatus env s).rtcSyncState = SyncState.SYNC_SUCCESS ∧
    (checkWiFiStatus env s).lastNTPSync = millis env.tStamp ∧
    (checkWiFiStatus env s).lastResponseTime
      = hhmmss tm.tm_hour.toNat tm.tm_min.toNat tm.tm_sec.toNat ∧
    (checkWiFiStatus env s).lastResponseTime.length = 8 := by
  have hY : wrapInt (tm.tm_year + 1900) = tm.tm_year + 1900 :=
    wrapInt_of_range _ (by omega) hyearInt
  have hM : wrapInt (tm.tm_mon + 1) = tm.tm_mon + 1 := wrapInt_of_range _ hmon0 hmon1
  have hrtc : ntpTimeOf tm
      = { Year := tm.tm_year + 1900, Month := tm.tm_mon + 1, Day := tm.tm_mday,
          Hour := tm.tm_hour, Minute := tm.tm_min, Second := tm.tm_sec } := by
    unfold ntpTimeOf
    rw [hY, hM]
  rw [checkWiFiStatus_connected env s hpoll hconn,
    syncIfDue_ok env (showSignal env.rssi s) tm hdue hfetch (by omega),
    syncTimeStrOf_eq tm hh0 hh1 hm0 hm1 hs0 hs1]
  refine ⟨hrtc, ?_, rfl, rfl, rfl, rfl⟩
  simp [showSignal, State.emit, rtcWrites]

/-- C4 amended, worked instance: the fetch 2024-06-01 10:30:00 gives the clock
content 2024-06-01 10:30:00 and the status string "10:30:00". -/
theorem steady_sync_success_witness :
    (checkWiFiStatus tickSyncOk steadyState).rtc = ⟨2024, 6, 1, 10, 30, 0⟩ ∧
    (checkWiFiStatus tickSyncOk steadyState).rtcSyncState = SyncState.SYNC_SUCCESS ∧
    (checkWiFiStatus tickSyncOk steadyState).lastNTPSync = 3600050 ∧
    (checkWiFiStatus tickSyncOk steadyState).lastResponseTime = "10:30:00" :=
  have h := steady_sync_success tickSyncOk steadyState tmJune (by decide) rfl (by decide) rfl
    (by decide) (by decide) (by decide) (by decide)
    (by decide) (by decide) (by decide) (by decide) (by decide) (by decide)
  ⟨h.1, h.2.2.1, h.2.2.2.1, h.2.2.2.2.1⟩

/-! ## C10: when a sync attempt is made -/

theorem checkWiFiStatus_no_sync_frame (env : WiFiEnv) (s : State)
    (h : env.connected = false ∨ wsub (millis env.tGate) s.lastNTPSync < 3600000) :
    (checkWiFiStatus env s).rtc = s.rtc ∧
    (checkWiFiStatus env s).rtcSyncState = s.rtcSyncState ∧
    (checkWiFiStatus env s).lastResponseTime = s.lastResponseTime ∧
    (checkWiFiStatus env s).lastNTPSync = s.lastNTPSync ∧
    rtcWrites (checkWiFiStatus env s).log = rtcWrites s.log ∧
    syncAttempts (checkWiFiStatus env s).log = syncAttempts s.log := by
  by_cases hp : wifiUpdateInterval ≤ wsub (millis env.tPoll) s.lastWiFiUpdate
  · cases hc : env.connected
    · rw [checkWiFiStatus_disconnected env s hp hc]
      unfold reconnectIfDue
      split <;> simp [showDisconnected, State.emit, rtcWrites, syncAttempts]
    · have hg : wsub (millis env.tGate) s.lastNTPSync < 3600000 := by
        rcases h with h | h
        · rw [hc] at h; exact absurd h (by decide)
        · exact h
      rw [checkWiFiStatus_connected env s hp hc, syncIfDue_skip env (showSignal env.rssi s) hg]
      simp [showSignal, State.emit, rtcWrites, syncAttempts]
  · rw [checkWiFiStatus_skip env s (by omega)]
    exact ⟨rfl, rfl, rfl, rfl, rfl, rfl⟩

/-- C10: a `checkWiFiStatus` tick calls `syncRTCWithNTP` only if Wi-Fi is
connected and the wrapping difference between the reading of the sync guard and
`lastNTPSync` is at least 3,600,000 ms; in a tick where Wi-Fi is not connected
or that difference is smaller, there is no `Rtc.SetDateTime` call and the clock
content, `rtcSyncState`, `lastResponseTime` and `lastNTPSync` are unchanged. -/
theorem sync_attempt_only_when_due (env : WiFiEnv) (s : State) :
    (syncAttempts (checkWiFiStatus env s).log ≠ syncAttempts s.log →
      env.connected = true ∧ 3600000 ≤ wsub (millis env.tGate) s.lastNTPSync) ∧
    ((env.connected = false ∨ wsub (millis env.tGate) s.lastNTPSync < 3600000) →
      (checkWiFiStatus env s).rtc = s.rtc ∧
      rtcWrites (checkWiFiStatus env s).log = rtcWrites s.log ∧
      (checkWiFiStatus env s).rtcSyncState = s.rtcSyncState ∧
      (checkWiFiStatus env s).lastResponseTime = s.lastResponseTime ∧
      (checkWiFiStatus env s).lastNTPSync = s.lastNTPSync) := by
  constructor
  · intro hne
    by_contra hcon
    apply hne
    refine (checkWiFiStatus_no_sync_frame env s ?_).2.2.2.2.2
    by_cases hc : env.connected = true
    · right
      by_contra hg
      exact hcon ⟨hc, by omega⟩
    · left
      simpa using hc
  · intro h
    have hf := checkWiFiStatus_no_sync_frame env s h
    exact ⟨hf.1, hf.2.2.2.2.1, hf.2.1, hf.2.2.1, hf.2.2.2.1⟩

/-- C10, worked instance: a disconnected tick one hour after start leaves the
sync variables alone. -/
theorem sync_attempt_only_when_due_witness :
    (checkWiFiStatus { tickSyncOk with connected := false } steadyState).rtc = steadyState.rtc ∧
    (checkWiFiStatus { tickSyncOk with connected := false } steadyState).lastNTPSync = 0 :=
  have h := (sync_attempt_only_when_due { tickSyncOk with connected := false } steadyState).2
    (Or.inl rfl)
  ⟨h.1, h.2.2.2.2⟩

/-! ## C2: a failed steady-state sync -/

theorem checkWiFiStatus_sync_attempted (env : WiFiEnv) (s : State)
    (hpoll : 1000 ≤ wsub (millis env.tPoll) s.lastWiFiUpdate)
    (hconn : env.connected = true)
    (hdue : 3600000 ≤ wsub (millis env.tGate) s.lastNTPSync) :
    syncAttempts (checkWiFiStatus env s).log = syncAttempts s.log + 1 := by
  rw [checkWiFiStatus_connected env s hpoll hconn]
  cases hf : fetchFails env.ntp
  · obtain ⟨tm, htm, hy⟩ := fetchFails_false _ hf
    rw [syncIfDue_ok env (showSignal env.rssi s) tm hdue htm hy]
    simp [showSignal, State.emit, syncAttempts]
  · obtain ⟨msg, hm⟩ := syncIfDue_fail env (showSignal env.rssi s) hdue hf
    rw [hm]
    simp [showSignal, State.emit, syncAttempts]

/-- C2 as stated fails: after the sync attempt of `tickSyncTimeout` (counter
3,600,000 to 3,610,000) times out, the state is `SYNC_FAILED` and the status
string is kept, but `lastNTPSync` is still 0, none of the readings of that
tick, and the tick 1000 ms later makes the next attempt, far less than
3,600,000 ms after the failed one. -/
theorem failed_sync_timer_not_reset :
    (checkWiFiStatus tickSyncTimeout steadyState).rtcSyncState = SyncState.SYNC_FAILED ∧
    (checkWiFiStatus tickSyncTimeout steadyState).lastResponseTime
      = steadyState.lastResponseTime ∧
    (checkWiFiStatus tickSyncTimeout steadyState).lastNTPSync = 0 ∧
    (checkWiFiStatus tickSyncTimeout steadyState).lastNTPSync
      ∉ [millis tickSyncTimeout.tPoll, millis tickSyncTimeout.tGate,
         millis tickSyncTimeout.tStamp, millis tickSyncTimeout.tEnd] ∧
    syncAttempts (checkWiFiStatus tickSyncTimeout steadyState).log = 1 ∧
    syncAttempts (checkWiFiStatus tickAfterTimeout
      (checkWiFiStatus tickSyncTimeout steadyState)).log = 2 ∧
    tickAfterTimeout.tGate - tickSyncTimeout.tEnd < ntpSyncInterval := by
  decide

/-- C2, amended: when a steady-state sync attempt of `checkWiFiStatus` fails
(timeout, or year below 2020), the sync state becomes `SYNC_FAILED`, the clock
content and `lastResponseTime` keep their values, and `lastNTPSync` is left
unchanged; so any later tick in which the poll fires, Wi-Fi is connected and
the sync guard still holds against that unchanged `lastNTPSync` makes another
attempt, however soon after the failed one. -/
theorem failed_sync_keeps_timer (env : WiFiEnv) (s : State)
    (hpoll : 1000 ≤ wsub (millis env.tPoll) s.lastWiFiUpdate)
    (hconn : env.connected = true)
    (hdue : 3600000 ≤ wsub (millis env.tGate) s.lastNTPSync)
    (hfail : fetchFails env.ntp = true) :
    (checkWiFiStatus env s).rtcSyncState = SyncState.SYNC_FAILED ∧
    (checkWiFiStatus env s).lastResponseTime = s.lastResponseTime ∧
    (checkWiFiStatus env s).rtc = s.rtc ∧
    (checkWiFiStatus env s).lastNTPSync = s.lastNTPSync ∧
    (∀ next : WiFiEnv,
      1000 ≤ wsub (millis next.tPoll) (checkWiFiStatus env s).lastWiFiUpdate →
      next.connected = true →
      3600000 ≤ wsub (millis next.tGate) s.lastNTPSync →
      syncAttempts (checkWiFiStatus next (checkWiFiStatus env s)).log
        = syncAttempts (checkWiFiStatus env s).log + 1) := by
  have hmain : (checkWiFiStatus env s).rtcSyncState = SyncState.SYNC_FAILED ∧
      (checkWiFiStatus env s).lastResponseTime = s.lastResponseTime ∧
      (checkWiFiStatus env s).rtc = s.rtc ∧
      (checkWiFiStatus env s).lastNTPSync = s.lastNTPSync := by
    rw [checkWiFiStatus_connected env s hpoll hconn]
    obtain ⟨msg, hm⟩ := syncIfDue_fail env (showSignal env.rssi s) hdue hfail
    rw [hm]
    exact ⟨rfl, rfl, rfl, rfl⟩
  refine ⟨hmain.1, hmain.2.1, hmain.2.2.1, hmain.2.2.2, ?_⟩
  intro next hp hc hd
  exact checkWiFiStatus_sync_attempted next _ hp hc (by rw [hmain.2.2.2]; exact hd)

/-- C2 amended, worked instance: the timed-out attempt of `tickSyncTimeout`
leaves `lastNTPSync` at 0 and the tick 1000 ms later attempts again. -/
theorem failed_sync_keeps_timer_witness :
    (checkWiFiStatus tickSyncTimeout steadyState).lastNTPSync = steadyState.lastNTPSync ∧
    syncAttempts (checkWiFiStatus tickAfterTimeout
      (checkWiFiStatus tickSyncTimeout steadyState)).log
      = syncAttempts (checkWiFiStatus tickSyncTimeout steadyState).log + 1 :=
  have h := failed_sync_keeps_timer tickSyncTimeout steadyState (by decide) rfl (by decide) rfl
  ⟨h.2.2.2.1, h.2.2.2.2 tickAfterTimeout (by decide) rfl (by decide)⟩

/-! ## Lemmas on `checkButtons` -/

theorem checkButtons_ignored (env : ButtonEnv) (s : State)
    (h : fallingEdge env s = false ∨ wsub (millis env.tCheck) s.lastDebounceTime ≤ 20) :
    checkButtons env s = finishPoll env s := by
  unfold checkButtons
  rcases h with h | h
  · simp only [h, Bool.false_eq_true, if_false]
  · have hn : ¬ wsub (millis env.tCheck) s.lastDebounceTime > debounceDelay := by
      simp only [debounceDelay]; omega
    simp only [hn, if_false, ite_self]

theorem checkButtons_accepted (env : ButtonEnv) (s : State)
    (he : fallingEdge env s = true) (h : 20 < wsub (millis env.tCheck) s.lastDebounceTime) :
    checkButtons env s = finishPoll env (applyPresses env s) := by
  unfold checkButtons
  have hn : wsub (millis env.tCheck) s.lastDebounceTime > debounceDelay := h
  simp only [he, hn, if_true]

theorem decreaseBrightness_index (s : State) :
    (decreaseBrightness s).currentBrightnessIndex
      = (if s.currentBrightnessIndex > 0 then s.currentBrightnessIndex - 1
         else s.currentBrightnessIndex) ∧
    (decreaseBrightness s).currentBrightness
      = (if s.currentBrightnessIndex > 0 then brightnessLevelsAt (s.currentBrightnessIndex - 1)
         else s.currentBrightness) := by
  unfold decreaseBrightness
  split <;> simp [State.emit]

theorem increaseBrightness_index (s : State)
    (h0 : 0 ≤ s.currentBrightnessIndex) (h4 : s.currentBrightnessIndex ≤ 4) :
    (increaseBrightness s).currentBrightnessIndex
      = (if s.currentBrightnessIndex < 4 then s.currentBrightnessIndex + 1
         else s.currentBrightnessIndex) ∧
    (increaseBrightness s).currentBrightness
      = (if s.currentBrightnessIndex < 4 then brightnessLevelsAt (s.currentBrightnessIndex + 1)
         else s.currentBrightness) := by
  unfold increaseBrightness
  have hmod : s.currentBrightnessIndex % 4294967296 = s.currentBrightnessIndex := by omega
  rw [hmod]
  have hlen : ((brightnessLevels.length : Int) - 1) = 4 := by decide
  rw [hlen]
  split <;> simp [State.emit]

theorem decreaseBrightness_ok (s : State) (h : BrightnessOk s) :
    BrightnessOk (decreaseBrightness s) := by
  obtain ⟨h0, h4, hb⟩ := h
  obtain ⟨hi, hv⟩ := decreaseBrightness_index s
  unfold BrightnessOk
  rw [hi, hv]
  split
  · exact ⟨by omega, by omega, rfl⟩
  · exact ⟨h0, h4, hb⟩

theorem increaseBrightness_ok (s : State) (h : BrightnessOk s) :
    BrightnessOk (increaseBrightness s) := by
  obtain ⟨h0, h4, hb⟩ := h
  obtain ⟨hi, hv⟩ := increaseBrightness_index s h0 h4
  unfold BrightnessOk
  rw [hi, hv]
  split
  · exact ⟨by omega, by omega, rfl⟩
  · exact ⟨h0, h4, hb⟩

theorem applyPresses_ok (env : ButtonEnv) (s : State) (h : BrightnessOk s) :
    BrightnessOk (applyPresses env s) := by
  have h1 : BrightnessOk (if env.bootBtnState == false then decreaseBrightness s else s) := by
    split
    · exact decreaseBrightness_ok s h
    · exact h
  have h2 : BrightnessOk (if env.keyBtnState == false then
        increaseBrightness (if env.bootBtnState == false then decreaseBrightness s else s)
       else (if env.bootBtnState == false then decreaseBrightness s else s)) := by
    split
    · exact increaseBrightness_ok _ h1
    · exact h1
  exact h2

theorem checkButtons_cases (env : ButtonEnv) (s : State) :
    (fallingEdge env s = true ∧ 20 < wsub (millis env.tCheck) s.lastDebounceTime ∧
      checkButtons env s = finishPoll env (applyPresses env s)) ∨
    ((fallingEdge env s = false ∨ wsub (millis env.tCheck) s.lastDebounceTime ≤ 20) ∧
      checkButtons env s = finishPoll env s) := by
  by_cases he : fallingEdge env s = true
  · by_cases hg : 20 < wsub (millis env.tCheck) s.lastDebounceTime
    · exact Or.inl ⟨he, hg, checkButtons_accepted env s he hg⟩
    · exact Or.inr ⟨Or.inr (by omega), checkButtons_ignored env s (Or.inr (by omega))⟩
  · have he2 : fallingEdge env s = false := by simpa using he
    exact Or.inr ⟨Or.inl he2, checkButtons_ignored env s (Or.inl he2)⟩

theorem checkButtons_ok (env : ButtonEnv) (s : State) (h : BrightnessOk s) :
    BrightnessOk (checkButtons env s) := by
  rcases checkButtons_cases env s with ⟨_, _, hc⟩ | ⟨_, hc⟩
  · rw [hc]
    exact applyPresses_ok env s h
  · rw [hc]
    exact h

theorem runButtons_ok (envs : List ButtonEnv) (s : State) (h : BrightnessOk s) :
    BrightnessOk (runButtons envs s) := by
  induction envs generalizing s with
  | nil => exact h
  | cons env rest ih => exact ih (checkButtons env s) (checkButtons_ok env s h)

theorem brightnessLevelsAt_mem (i : Int) (h0 : 0 ≤ i) (h4 : i ≤ 4) :
    brightnessLevelsAt i ∈ [80, 120, 160, 200, 240] := by
  have hcases : i = 0 ∨ i = 1 ∨ i = 2 ∨ i = 3 ∨ i = 4 := by omega
  rcases hcases with h | h | h | h | h <;> subst h <;> decide

/-! ## C5: the shared debounce window -/

theorem checkButtons_within_window (env : ButtonEnv) (s : State)
    (h : wsub (millis env.tCheck) s.lastDebounceTime ≤ 20) :
    (checkButtons env s).currentBrightnessIndex = s.currentBrightnessIndex ∧
    (checkButtons env s).currentBrightness = s.currentBrightness ∧
    (checkButtons env s).lastDebounceTime = s.lastDebounceTime := by
  rw [checkButtons_ignored env s (Or.inr h)]
  exact ⟨rfl, rfl, rfl⟩

theorem runButtons_within_window (polls : List ButtonEnv) :
    ∀ (s : State), (∀ p ∈ polls, wsub (millis p.tCheck) s.lastDebounceTime ≤ 20) →
      (runButtons polls s).currentBrightnessIndex = s.currentBrightnessIndex ∧
      (runButtons polls s).currentBrightness = s.currentBrightness ∧
      (runButtons polls s).lastDebounceTime = s.lastDebounceTime := by
  induction polls with
  | nil =>
    intro s _
    exact ⟨rfl, rfl, rfl⟩
  | cons p rest ih =>
    intro s h
    obtain ⟨h1, h2, h3⟩ := checkButtons_within_window p s (h p (List.mem_cons_self p rest))
    obtain ⟨i1, i2, i3⟩ := ih (checkButtons p s) (fun q hq => by
      rw [h3]
      exact h q (List.mem_cons_of_mem p hq))
    exact ⟨i1.trans h1, i2.trans h2, i3.trans h3⟩

/-- C5: (1) a poll whose debounce reading is within 20 ms (wrapping difference)
of the stored last-accepted-edge time changes neither the brightness index, nor
the brightness, nor that stored time, whichever button shows an edge; (2) a
falling edge on either button read more than 20 ms after the stored time is
accepted: the stored time becomes the reading taken at the store, and through
any following polls read within 20 ms of it, whatever edges they show on either
button, index, brightness and stored time stay as the accepted edge left them,
so the edges give one accepted transition; (3) an accepted press of the boot
button alone lowers the index by one down to 0, of the key button alone raises
it by one up to 4. -/
theorem debounce_window (env : ButtonEnv) (polls : List ButtonEnv) (s : State) :
    (wsub (millis env.tCheck) s.lastDebounceTime ≤ 20 →
      (checkButtons env s).currentBrightnessIndex = s.currentBrightnessIndex ∧
      (checkButtons env s).currentBrightness = s.currentBrightness ∧
      (checkButtons env s).lastDebounceTime = s.lastDebounceTime) ∧
    (fallingEdge env s = true → 20 < wsub (millis env.tCheck) s.lastDebounceTime →
      (checkButtons env s).lastDebounceTime = millis env.tStamp ∧
      ((∀ p ∈ polls, wsub (millis p.tCheck) (millis env.tStamp) ≤ 20) →
        (runButtons polls (checkButtons env s)).currentBrightnessIndex
          = (checkButtons env s).currentBrightnessIndex ∧
        (runButtons polls (checkButtons env s)).currentBrightness
          = (checkButtons env s).currentBrightness ∧
        (runButtons polls (checkButtons env s)).lastDebounceTime = millis env.tStamp)) ∧
    (fallingEdge env s = true → 20 < wsub (millis env.tCheck) s.lastDebounceTime →
      0 ≤ s.currentBrightnessIndex → s.currentBrightnessIndex ≤ 4 →
      (env.bootBtnState = false → env.keyBtnState = true →
        (checkButtons env s).currentBrightnessIndex = max (s.currentBrightnessIndex - 1) 0) ∧
      (env.keyBtnState = false → env.bootBtnState = true →
        (checkButtons env s).currentBrightnessIndex = min (s.currentBrightnessIndex + 1) 4)) := by
  refine ⟨checkButtons_within_window env s, ?_, ?_⟩
  · intro he hg
    have hacc := checkButtons_accepted env s he hg
    have hstamp : (checkButtons env s).lastDebounceTime = millis env.tStamp := by
      rw [hacc]; rfl
    refine ⟨hstamp, fun hw => ?_⟩
    have h2 := runButtons_within_window polls (checkButtons env s) (by rw [hstamp]; exact hw)
    exact ⟨h2.1, h2.2.1, by rw [h2.2.2, hstamp]⟩
  · intro he hg h0 h4
    rw [checkButtons_accepted env s he hg]
    constructor
    · intro hb hk
      show (applyPresses env s).currentBrightnessIndex = _
      unfold applyPresses
      simp only [hb, hk, beq_self_eq_true, if_true]
      have hd := (decreaseBrightness_index s).1
      show (decreaseBrightness s).currentBrightnessIndex = _
      rw [hd]
      split <;> omega
    · intro hk hb
      show (applyPresses env s).currentBrightnessIndex = _
      unfold applyPresses
      simp only [hb, hk, beq_self_eq_true, if_true]
      have hi := (increaseBrightness_index s h0 h4).1
      show (increaseBrightness s).currentBrightnessIndex = _
      rw [hi]
      split <;> omega

/-- C5, worked instance: from index 2 a boot press at counter 1000 is accepted
(index 1, stored time 1000); the bounce of the same button at 1012 and the key
press at 1015 are ignored. -/
theorem debounce_window_witness :
    (checkButtons pollBootLow steadyState).currentBrightnessIndex = max (2 - 1) 0 ∧
    (checkButtons pollBootLow steadyState).lastDebounceTime = 1000 ∧
    (runButtons pollsBounce (checkButtons pollBootLow steadyState)).currentBrightnessIndex
      = (checkButtons pollBootLow steadyState).currentBrightnessIndex ∧
    (runButtons pollsBounce (checkButtons pollBootLow steadyState)).lastDebounceTime = 1000 :=
  have h := debounce_window pollBootLow pollsBounce steadyState
  have h2 := h.2.1 (by decide) (by decide)
  ⟨(h.2.2 (by decide) (by decide) (by decide) (by decide)).1 rfl rfl, h2.1,
    (h2.2 (by decide)).1, (h2.2 (by decide)).2.2⟩

/-! ## C6: the brightness invariant -/

/-- Every `brightnessLevels[...]` read of `checkButtons` is inside the array:
the decrement is taken only from an index above 0 and the increment only from
an index below 4, so from an index in 0..4 both reads are at an index in
0..4. -/
theorem checkButtons_index_in_bounds (s : State) (h : BrightnessOk s) :
    BrightnessOk (decreaseBrightness s) ∧ BrightnessOk (increaseBrightness s) ∧
    BrightnessOk (increaseBrightness (decreaseBrightness s)) :=
  ⟨decreaseBrightness_ok s h, increaseBrightness_ok s h,
    increaseBrightness_ok _ (decreaseBrightness_ok s h)⟩

/-- C6: the program starts at index 2 and brightness 160; after any sequence
of `checkButtons` polls, whatever the levels and readings, the index is in 0..4
and `currentBrightness` is `brightnessLevels[index]`, one of 80, 120, 160, 200,
240; a poll with the boot button low and the key button high at index 0 leaves
index and brightness unchanged, and so does a poll with the key button low and
the boot button high at index 4. -/
theorem brightness_index_clamped (rtc0 : RtcDateTime) (envs : List ButtonEnv) :
    ((initialState rtc0).currentBrightnessIndex = 2 ∧
      (initialState rtc0).currentBrightness = 160) ∧
    (0 ≤ (runButtons envs (initialState rtc0)).currentBrightnessIndex ∧
      (runButtons envs (initialState rtc0)).currentBrightnessIndex ≤ 4 ∧
      (runButtons envs (initialState rtc0)).currentBrightness
        = brightnessLevelsAt (runButtons envs (initialState rtc0)).currentBrightnessIndex ∧
      (runButtons envs (initialState rtc0)).currentBrightness ∈ [80, 120, 160, 200, 240]) ∧
    (∀ (env : ButtonEnv) (s : State), s.currentBrightnessIndex = 0 →
      env.bootBtnState = false → env.keyBtnState = true →
      (checkButtons env s).currentBrightnessIndex = 0 ∧
      (checkButtons env s).currentBrightness = s.currentBrightness) ∧
    (∀ (env : ButtonEnv) (s : State), s.currentBrightnessIndex = 4 →
      env.keyBtnState = false → env.bootBtnState = true →
      (checkButtons env s).currentBrightnessIndex = 4 ∧
      (checkButtons env s).currentBrightness = s.currentBrightness) := by
  have hinit : BrightnessOk (initialState rtc0) :=
    ⟨show (0 : Int) ≤ 2 by decide, show (2 : Int) ≤ 4 by decide, rfl⟩
  have hrun := runButtons_ok envs (initialState rtc0) hinit
  refine ⟨⟨rfl, rfl⟩, ⟨hrun.1, hrun.2.1, hrun.2.2, ?_⟩, ?_, ?_⟩
  · rw [hrun.2.2]
    exact brightnessLevelsAt_mem _ hrun.1 hrun.2.1
  · intro env s hi hb hk
    rcases checkButtons_cases env s with ⟨_, _, hc⟩ | ⟨_, hc⟩
    · rw [hc]
      show (applyPresses env s).currentBrightnessIndex = 0 ∧
        (applyPresses env s).currentBrightness = s.currentBrightness
      unfold applyPresses
      simp only [hb, hk, beq_self_eq_true, if_true]
      show (decreaseBrightness s).currentBrightnessIndex = 0 ∧
        (decreaseBrightness s).currentBrightness = s.currentBrightness
      obtain ⟨h1, h2⟩ := decreaseBrightness_index s
      rw [h1, h2, hi]
      exact ⟨rfl, rfl⟩
    · rw [hc]
      exact ⟨hi, rfl⟩
  · intro env s hi hk hb
    rcases checkButtons_cases env s with ⟨_, _, hc⟩ | ⟨_, hc⟩
    · rw [hc]
      show (applyPresses env s).currentBrightnessIndex = 4 ∧
        (applyPresses env s).currentBrightness = s.currentBrightness
      unfold applyPresses
      simp only [hb, hk, beq_self_eq_true, if_true]
      show (increaseBrightness s).currentBrightnessIndex = 4 ∧
        (increaseBrightness s).currentBrightness = s.currentBrightness
      obtain ⟨h1, h2⟩ := increaseBrightness_index s (by omega) (by omega)
      rw [h1, h2, hi]
      exact ⟨rfl, rfl⟩
    · rw [hc]
      exact ⟨hi, rfl⟩

/-- C6, worked instance: an accepted boot press at index 0 keeps index 0 and
brightness 80; an accepted key press at index 4 keeps index 4 and brightness
240. -/
theorem brightness_index_clamped_witness :
    ((checkButtons pollBootLow dimmestState).lastDebounceTime = 1000 ∧
      (checkButtons pollBootLow dimmestState).currentBrightnessIndex = 0 ∧
      (checkButtons pollBootLow dimmestState).currentBrightness = 80) ∧
    ((checkButtons pollKeyLow brightestState).lastDebounceTime = 1000 ∧
      (checkButtons pollKeyLow brightestState).currentBrightnessIndex = 4 ∧
      (checkButtons pollKeyLow brightestState).currentBrightness = 240) :=
  have h := brightness_index_clamped ⟨2024, 1, 1, 0, 0, 0⟩ [pollBootLow, pollKeyLow]
  ⟨⟨by decide, h.2.2.1 pollBootLow dimmestState rfl rfl rfl⟩,
    ⟨by decide, h.2.2.2 pollKeyLow brightestState rfl rfl rfl⟩⟩

/-! ## C7: which button an accepted edge acts for -/

/-- C7 fails on the code: with the boot (decrease) button held low since the
previous poll and a falling edge on the key (increase) button accepted at index
2, `checkButtons` runs both press blocks, writing brightness 120 and then 160,
and ends at index 2, not at min(2 + 1, 4) = 3. -/
theorem held_button_acts_again :
    bootHeldState.currentBrightnessIndex = 2 ∧
    bootHeldState.lastBootBtnState = false ∧ bootHeldState.lastKeyBtnState = true ∧
    fallingEdge pollBothLow bootHeldState = true ∧
    (checkButtons pollBothLow bootHeldState).lastDebounceTime = 1000 ∧
    (checkButtons pollBothLow bootHeldState).currentBrightnessIndex = 2 ∧
    (checkButtons pollBothLow bootHeldState).currentBrightnessIndex ≠ min (2 + 1) 4 ∧
    (checkButtons pollBothLow bootHeldState).log
      = [Effect.analogWriteBL 120, Effect.analogWriteBL 160,
         Effect.barSetValue Widget.ui_brightnessBar 160] := by
  decide

/-! ## C8: the initial sync of `setup` -/

theorem initialSyncLoop_done (env : BootEnv) (retryCount : Nat) (s : State) :
    initialSyncLoop env true retryCount s = (true, retryCount, s) := by
  rw [initialSyncLoop]
  simp

theorem initialSyncLoop_exhausted (env : BootEnv) (s : State) :
    initialSyncLoop env false 3 s = (false, 3, s) := by
  rw [initialSyncLoop]
  simp [maxRetries]

theorem initialSyncLoop_ok (env : BootEnv) (k : Nat) (s : State) (tm : Tm) (hk : k < 3)
    (hf : env.ntp k = some tm) (hy : 120 ≤ tm.tm_year) :
    ∃ s1, initialSyncLoop env false k s = (true, k, s1) ∧
      s1.rtc = ntpTimeOf tm ∧ s1.rtcSyncState = SyncState.SYNC_SUCCESS ∧
      s1.lastResponseTime = syncTimeStrOf tm ∧ s1.lastNTPSync = millis env.tSync ∧
      syncAttempts s1.log = syncAttempts s.log + 1 ∧
      rtcWrites s1.log = rtcWrites s.log + 1 := by
  rw [initialSyncLoop]
  have hlt : k < maxRetries := hk
  simp only [Bool.not_false, hlt, decide_True, Bool.and_self, if_true]
  rw [hf, syncRTCWithNTP_ok tm _ hy]
  simp only [if_true]
  rw [initialSyncLoop_done]
  refine ⟨_, rfl, rfl, rfl, rfl, rfl, ?_, ?_⟩
  · simp [State.emit, syncAttempts]
  · simp [State.emit, rtcWrites]

theorem initialSyncLoop_fail (env : BootEnv) (k : Nat) (s : State) (hk : k < 3)
    (hf : fetchFails (env.ntp k) = true) :
    ∃ s1, initialSyncLoop env false k s = initialSyncLoop env false (k + 1) s1 ∧
      s1.rtc = s.rtc ∧ s1.rtcSyncState = s.rtcSyncState ∧
      s1.lastResponseTime = s.lastResponseTime ∧ s1.lastNTPSync = s.lastNTPSync ∧
      syncAttempts s1.log = syncAttempts s.log + 1 ∧
      rtcWrites s1.log = rtcWrites s.log := by
  rw [initialSyncLoop]
  have hlt : k < maxRetries := hk
  simp only [Bool.not_false, hlt, decide_True, Bool.and_self, if_true]
  obtain ⟨msg, hm⟩ := syncRTCWithNTP_fail (env.ntp k)
    (s.emit (Effect.lcdPrint (String.mk
      ("Attempt ".data ++ fmtInt (k + 1) ++ " of ".data ++ fmtInt maxRetries ++ ['\n'])))) hf
  rw [hm]
  simp only [Bool.false_eq_true, if_false]
  refine ⟨_, rfl, rfl, rfl, rfl, rfl, ?_, ?_⟩
  · simp [State.emit, syncAttempts]
  · simp [State.emit, rtcWrites]

theorem initialSyncLoop_first_success (env : BootEnv) (k : Nat) (tm : Tm) (hk : k < 3)
    (hf : env.ntp k = some tm) (hy : 120 ≤ tm.tm_year) :
    ∀ (d i : Nat) (s : State), i + d = k →
      (∀ j, i ≤ j → j < k → fetchFails (env.ntp j) = true) →
      ∃ s1, initialSyncLoop env false i s = (true, k, s1) ∧
        s1.rtc = ntpTimeOf tm ∧ s1.rtcSyncState = SyncState.SYNC_SUCCESS ∧
        s1.lastResponseTime = syncTimeStrOf tm ∧ s1.lastNTPSync = millis env.tSync ∧
        syncAttempts s1.log = syncAttempts s.log + (d + 1) ∧
        rtcWrites s1.log = rtcWrites s.log + 1 := by
  intro d
  induction d with
  | zero =>
    intro i s hik _
    have hi : i = k := by omega
    subst hi
    exact initialSyncLoop_ok env i s tm hk hf hy
  | succ d ih =>
    intro i s hik hfail
    obtain ⟨s1, h1, hr, hst, hl, hn, ha, hw⟩ :=
      initialSyncLoop_fail env i s (by omega) (hfail i (le_refl i) (by omega))
    obtain ⟨s2, h2, hr2, hst2, hl2, hn2, ha2, hw2⟩ :=
      ih (i + 1) s1 (by omega) (fun j hj hjk => hfail j (by omega) hjk)
    refine ⟨s2, by rw [h1, h2], hr2, hst2, hl2, hn2, ?_, ?_⟩
    · rw [ha2, ha]; omega
    · rw [hw2, hw]

theorem initialSyncLoop_all_fail (env : BootEnv)
    (hfail : ∀ j, j < 3 → fetchFails (env.ntp j) = true) :
    ∀ (d i : Nat) (s : State), i + d = 3 →
      ∃ s1, initialSyncLoop env false i s = (false, 3, s1) ∧
        s1.rtc = s.rtc ∧ s1.rtcSyncState = s.rtcSyncState ∧
        s1.lastResponseTime = s.lastResponseTime ∧ s1.lastNTPSync = s.lastNTPSync ∧
        syncAttempts s1.log = syncAttempts s.log + d ∧
        rtcWrites s1.log = rtcWrites s.log := by
  intro d
  induction d with
  | zero =>
    intro i s hi
    have h3 : i = 3 := by omega
    subst h3
    exact ⟨s, initialSyncLoop_exhausted env s, rfl, rfl, rfl, rfl, rfl, rfl⟩
  | succ d ih =>
    intro i s hi
    obtain ⟨s1, h1, hr, hst, hl, hn, ha, hw⟩ :=
      initialSyncLoop_fail env i s (by omega) (hfail i (by omega))
    obtain ⟨s2, h2, hr2, hst2, hl2, hn2, ha2, hw2⟩ := ih (i + 1) s1 (by omega)
    refine ⟨s2, by rw [h1, h2], by rw [hr2, hr], by rw [hst2, hst], by rw [hl2, hl],
      by rw [hn2, hn], ?_, by rw [hw2, hw]⟩
    rw [ha2, ha]; omega

theorem setupInitialSync_success (env : BootEnv) (s : State) (k : Nat) (tm : Tm) (hk : k < 3)
    (hprev : ∀ j, j < k → fetchFails (env.ntp j) = true)
    (hf : env.ntp k = some tm) (hy : 120 ≤ tm.tm_year) :
    syncAttempts (setupInitialSync env s).log = syncAttempts s.log + (k + 1) ∧
    (setupInitialSync env s).rtcSyncState = SyncState.SYNC_SUCCESS ∧
    (setupInitialSync env s).rtc = ntpTimeOf tm ∧
    rtcWrites (setupInitialSync env s).log = rtcWrites s.log + 1 ∧
    (setupInitialSync env s).lastNTPSync = millis env.tSync := by
  obtain ⟨s1, h1, hr, hst, _, hn, ha, hw⟩ :=
    initialSyncLoop_first_success env k tm hk hf hy k 0
      (s.emit (Effect.lcdPrint "Attempting initial NTP sync...\n\n")) (by omega)
      (fun j _ hjk => hprev j hjk)
  unfold setupInitialSync
  simp only [h1, Bool.not_true, Bool.false_eq_true, if_false]
  refine ⟨?_, hst, hr, ?_, hn⟩
  · rw [ha]; simp [State.emit, syncAttempts]
  · rw [hw]; simp [State.emit, rtcWrites]

theorem setupInitialSync_fallback (env : BootEnv) (s : State)
    (hfail : ∀ j, j < 3 → fetchFails (env.ntp j) = true) :
    syncAttempts (setupInitialSync env s).log = syncAttempts s.log + 3 ∧
    (setupInitialSync env s).rtc = env.compiled ∧
    (setupInitialSync env s).log.getLast? = some (Effect.rtcSetDateTime env.compiled) ∧
    rtcWrites (setupInitialSync env s).log = rtcWrites s.log + 1 ∧
    (setupInitialSync env s).rtcSyncState = SyncState.SYNC_FAILED ∧
    (setupInitialSync env s).lastResponseTime = "compiled" := by
  obtain ⟨s1, h1, _, _, _, _, ha, hw⟩ :=
    initialSyncLoop_all_fail env hfail 3 0
      (s.emit (Effect.lcdPrint "Attempting initial NTP sync...\n\n")) (by omega)
  unfold setupInitialSync
  simp only [h1, Bool.not_false, if_true]
  refine ⟨?_, trivial, ?_, ?_, ?_, ?_⟩
  · simp [State.emit, syncAttempts_append, ha]
    simp [syncAttempts]
  · simp [State.emit]
  · simp [State.emit, rtcWrites_append, hw]
    simp [rtcWrites]
  · simp [State.emit]
  · simp [State.emit]

/-- C8: the initial sync of `setup` calls `syncRTCWithNTP` at most 3 times;
when the first successful attempt is the one with `retryCount = k` (k < 3, the
earlier ones failing) exactly `k + 1` calls are made, the state ends
`SYNC_SUCCESS`, and the only `Rtc.SetDateTime` call is the one of that sync, the
clock holding the fetched time (no fallback write); when all three fetches fail
exactly 3 calls are made, the last library call is `Rtc.SetDateTime(compiled)`,
the only clock write, the state is `SYNC_FAILED` and `lastResponseTime` is
"compiled". -/
theorem initial_sync_bootstrap (env : BootEnv) (s : State) :
    syncAttempts (setupInitialSync env s).log ≤ syncAttempts s.log + 3 ∧
    (∀ (k : Nat) (tm : Tm), k < 3 →
      (∀ j, j < k → fetchFails (env.ntp j) = true) →
      env.ntp k = some tm → 120 ≤ tm.tm_year →
      syncAttempts (setupInitialSync env s).log = syncAttempts s.log + (k + 1) ∧
      (setupInitialSync env s).rtcSyncState = SyncState.SYNC_SUCCESS ∧
      (setupInitialSync env s).rtc = ntpTimeOf tm ∧
      rtcWrites (setupInitialSync env s).log = rtcWrites s.log + 1) ∧
    ((∀ j, j < 3 → fetchFails (env.ntp j) = true) →
      syncAttempts (setupInitialSync env s).log = syncAttempts s.log + 3 ∧
      (setupInitialSync env s).rtc = env.compiled ∧
      (setupInitialSync env s).log.getLast? = some (Effect.rtcSetDateTime env.compiled) ∧
      rtcWrites (setupInitialSync env s).log = rtcWrites s.log + 1 ∧
      (setupInitialSync env s).rtcSyncState = SyncState.SYNC_FAILED ∧
      (setupInitialSync env s).lastResponseTime = "compiled") := by
  have hsucc : ∀ (k : Nat) (tm : Tm), k < 3 →
      (∀ j, j < k → fetchFails (env.ntp j) = true) →
      env.ntp k = some tm → 120 ≤ tm.tm_year →
      syncAttempts (setupInitialSync env s).log = syncAttempts s.log + (k + 1) ∧
      (setupInitialSync env s).rtcSyncState = SyncState.SYNC_SUCCESS ∧
      (setupInitialSync env s).rtc = ntpTimeOf tm ∧
      rtcWrites (setupInitialSync env s).log = rtcWrites s.log + 1 := by
    intro k tm hk hprev hf hy
    have h := setupInitialSync_success env s k tm hk hprev hf hy
    exact ⟨h.1, h.2.1, h.2.2.1, h.2.2.2.1⟩
  refine ⟨?_, hsucc, setupInitialSync_fallback env s⟩
  cases h0 : fetchFails (env.ntp 0)
  · obtain ⟨tm, htm, hy⟩ := fetchFails_false _ h0
    have h := (hsucc 0 tm (by omega) (fun j hj => absurd hj (by omega)) htm hy).1
    omega
  · cases h1 : fetchFails (env.ntp 1)
    · obtain ⟨tm, htm, hy⟩ := fetchFails_false _ h1
      have h := (hsucc 1 tm (by omega)
        (fun j hj => by have hj0 : j = 0 := by omega
                        rw [hj0]; exact h0) htm hy).1
      omega
    · cases h2 : fetchFails (env.ntp 2)
      · obtain ⟨tm, htm, hy⟩ := fetchFails_false _ h2
        have h := (hsucc 2 tm (by omega)
          (fun j hj => by
            have hj01 : j = 0 ∨ j = 1 := by omega
            rcases hj01 with hj0 | hj1
            · rw [hj0]; exact h0
            · rw [hj1]; exact h1) htm hy).1
        omega
      · have h := (setupInitialSync_fallback env s (fun j hj => by
          have hj012 : j = 0 ∨ j = 1 ∨ j = 2 := by omega
          rcases hj012 with hj0 | hj1 | hj2
          · rw [hj0]; exact h0
          · rw [hj1]; exact h1
          · rw [hj2]; exact h2)).1
        omega

/-- C8, worked instances: with the first fetch timing out and the second
answering 2024-06-01 10:30:00, two calls are made and the clock holds the
fetched time; with every fetch timing out, three calls are made and the clock
holds the build timestamp, the status string being "compiled". -/
theorem initial_sync_bootstrap_witness :
    (syncAttempts (setupInitialSync bootSecondOk steadyState).log
        = syncAttempts steadyState.log + (1 + 1) ∧
      (setupInitialSync bootSecondOk steadyState).rtcSyncState = SyncState.SYNC_SUCCESS ∧
      (setupInitialSync bootSecondOk steadyState).rtc = ⟨2024, 6, 1, 10, 30, 0⟩) ∧
    (syncAttempts (setupInitialSync bootAllFail steadyState).log
        = syncAttempts steadyState.log + 3 ∧
      (setupInitialSync bootAllFail steadyState).rtc = ⟨2023, 11, 5, 12, 0, 0⟩ ∧
      (setupInitialSync bootAllFail steadyState).rtcSyncState = SyncState.SYNC_FAILED ∧
      (setupInitialSync bootAllFail steadyState).lastResponseTime = "compiled") :=
  have h1 := (initial_sync_bootstrap bootSecondOk steadyState).2.1 1 tmJune (by decide)
    (fun j hj => by have hj0 : j = 0 := by omega
                    rw [hj0]; rfl) rfl (by decide)
  have h2 := (initial_sync_bootstrap bootAllFail steadyState).2.2 (fun _ _ => rfl)
  ⟨⟨h1.1, h1.2.1, h1.2.2.1⟩, ⟨h2.1, h2.2.1, h2.2.2.2.2.1, h2.2.2.2.2.2⟩⟩

/-! ## C9: reconnect requests -/

theorem syncIfDue_reconnect_frame (env : WiFiEnv) (s : State) :
    (syncIfDue env s).lastReconnectAttempt = s.lastReconnectAttempt ∧
    reconnectRequests (syncIfDue env s).log = reconnectRequests s.log := by
  by_cases hg : ntpSyncInterval ≤ wsub (millis env.tGate) s.lastNTPSync
  · cases hf : fetchFails env.ntp
    · obtain ⟨tm, htm, hy⟩ := fetchFails_false _ hf
      rw [syncIfDue_ok env s tm hg htm hy]
      exact ⟨rfl, by simp [reconnectRequests]⟩
    · obtain ⟨msg, hm⟩ := syncIfDue_fail env s hg hf
      rw [hm]
      exact ⟨rfl, by simp [reconnectRequests]⟩
  · rw [syncIfDue_skip env s (by omega)]
    exact ⟨rfl, rfl⟩

theorem checkWiFiStatus_reconnect_issued (env : WiFiEnv) (s : State)
    (hp : 1000 ≤ wsub (millis env.tPoll) s.lastWiFiUpdate) (hc : env.connected = false)
    (hg : 10000 ≤ wsub (millis env.tGate) s.lastReconnectAttempt) :
    reconnectRequests (checkWiFiStatus env s).log = reconnectRequests s.log + 1 ∧
    (checkWiFiStatus env s).lastReconnectAttempt = millis env.tStamp := by
  rw [checkWiFiStatus_disconnected env s hp hc]
  unfold reconnectIfDue
  have hg2 : wsub (millis env.tGate) (showDisconnected s).lastReconnectAttempt ≥ 10000 := hg
  rw [if_pos hg2]
  exact ⟨by simp [showDisconnected, State.emit, reconnectRequests], rfl⟩

theorem checkWiFiStatus_reconnect_none (env : WiFiEnv) (s : State)
    (h : ¬ (1000 ≤ wsub (millis env.tPoll) s.lastWiFiUpdate ∧ env.connected = false ∧
      10000 ≤ wsub (millis env.tGate) s.lastReconnectAttempt)) :
    reconnectRequests (checkWiFiStatus env s).log = reconnectRequests s.log ∧
    (checkWiFiStatus env s).lastReconnectAttempt = s.lastReconnectAttempt := by
  by_cases hp : wifiUpdateInterval ≤ wsub (millis env.tPoll) s.lastWiFiUpdate
  · cases hc : env.connected
    · have hg : ¬ wsub (millis env.tGate) (showDisconnected s).lastReconnectAttempt ≥ 10000 :=
        fun hg => h ⟨hp, hc, hg⟩
      rw [checkWiFiStatus_disconnected env s hp hc]
      unfold reconnectIfDue
      rw [if_neg hg]
      exact ⟨by simp [showDisconnected, State.emit, reconnectRequests], rfl⟩
    · rw [checkWiFiStatus_connected env s hp hc]
      obtain ⟨h1, h2⟩ := syncIfDue_reconnect_frame env (showSignal env.rssi s)
      refine ⟨?_, h1⟩
      show reconnectRequests (syncIfDue env (showSignal env.rssi s)).log = _
      rw [h2]
      simp [showSignal, State.emit, reconnectRequests]
  · rw [checkWiFiStatus_skip env s (by omega)]
    exact ⟨rfl, rfl⟩

theorem wsub_no_wrap (a b : Nat) (hab : b ≤ a) (ha : a < U32) : wsub (millis a) b = a - b := by
  simp only [wsub, millis, U32] at *
  omega

theorem reconnectTimes_chain (envs : List WiFiEnv) :
    ∀ (s : State) (t0 : Nat), MonotoneTicks t0 envs → s.lastReconnectAttempt ≤ t0 →
      List.Chain (fun a b => a + 10000 ≤ b) s.lastReconnectAttempt (reconnectTimes envs s) ∧
      reconnectRequests (runWiFi envs s).log
        = reconnectRequests s.log + (reconnectTimes envs s).length := by
  induction envs with
  | nil =>
    intro s t0 _ _
    exact ⟨List.Chain.nil, rfl⟩
  | cons env rest ih =>
    intro s t0 hm h0
    obtain ⟨h1, h2, h3, h4, h5, hrest⟩ := hm
    have hstamp : millis env.tStamp = env.tStamp := by
      simp only [millis, U32] at *
      omega
    by_cases hiss : 1000 ≤ wsub (millis env.tPoll) s.lastWiFiUpdate ∧ env.connected = false ∧
        10000 ≤ wsub (millis env.tGate) s.lastReconnectAttempt
    · obtain ⟨hp, hc, hg⟩ := hiss
      obtain ⟨hcount, hlast⟩ := checkWiFiStatus_reconnect_issued env s hp hc hg
      rw [wsub_no_wrap env.tGate s.lastReconnectAttempt (by omega) (by omega)] at hg
      have hne : reconnectRequests (checkWiFiStatus env s).log ≠ reconnectRequests s.log := by
        omega
      obtain ⟨ihc, ihn⟩ := ih (checkWiFiStatus env s) env.tEnd hrest (by rw [hlast, hstamp]; exact h4)
      simp only [reconnectTimes, hne, ne_eq, not_false_eq_true, if_true]
      constructor
      · refine List.Chain.cons (by rw [hstamp]; omega) ?_
        rw [hlast] at ihc
        exact ihc
      · show reconnectRequests (runWiFi rest (checkWiFiStatus env s)).log = _
        rw [ihn, hcount, List.length_cons]
        omega
    · obtain ⟨hcount, hlast⟩ := checkWiFiStatus_reconnect_none env s hiss
      obtain ⟨ihc, ihn⟩ := ih (checkWiFiStatus env s) env.tEnd hrest (by rw [hlast]; omega)
      simp only [reconnectTimes, hcount, ne_eq, not_true_eq_false, if_false]
      constructor
      · rw [hlast] at ihc
        exact ihc
      · show reconnectRequests (runWiFi rest (checkWiFiStatus env s)).log = _
        rw [ihn, hcount]

theorem window_at_most_one (l : List Nat) (h : List.Pairwise (fun a b => a + 10000 ≤ b) l)
    (w : Nat) : (l.filter (fun t => decide (w ≤ t ∧ t < w + 10000))).length ≤ 1 := by
  induction l with
  | nil => simp
  | cons a rest ih =>
    rw [List.pairwise_cons] at h
    obtain ⟨ha, hrest⟩ := h
    by_cases hin : w ≤ a ∧ a < w + 10000
    · have hnone : rest.filter (fun t => decide (w ≤ t ∧ t < w + 10000)) = [] := by
        rw [List.filter_eq_nil_iff]
        intro b hb
        have := ha b hb
        simp only [decide_eq_true_eq, not_and, not_lt]
        intro _
        omega
      rw [List.filter_cons_of_pos (by simpa using hin), hnone]
      simp
    · rw [List.filter_cons_of_neg (by simpa using hin)]
      exact ih hrest

/-- C9: (1) a `checkWiFiStatus` tick issues a reconnect request only if the
poll fires, Wi-Fi is not connected and the wrapping difference between the
reading of the reconnect guard and the last request time is at least 10000 ms;
(2) a tick in which the poll fires with Wi-Fi not connected and at least
10000 ms elapsed issues exactly one request and stores the reading taken at the
store as the last request time; (3) over any run of ticks with non-decreasing
counter values below `2^32`, each request time is at least 10000 ms after the
previous one (and the first at least 10000 ms after the stored last request
time), any two requests of the run are at least 10000 ms apart, no window
`[w, w + 10000)` holds more than one, and the run issues exactly the listed
requests. -/
theorem reconnect_throttled (envs : List WiFiEnv) (s : State) (t0 : Nat)
    (hmono : MonotoneTicks t0 envs) (h0 : s.lastReconnectAttempt ≤ t0) :
    (∀ (env : WiFiEnv) (st : State),
      reconnectRequests (checkWiFiStatus env st).log ≠ reconnectRequests st.log →
      1000 ≤ wsub (millis env.tPoll) st.lastWiFiUpdate ∧ env.connected = false ∧
      10000 ≤ wsub (millis env.tGate) st.lastReconnectAttempt) ∧
    (∀ (env : WiFiEnv) (st : State),
      1000 ≤ wsub (millis env.tPoll) st.lastWiFiUpdate → env.connected = false →
      10000 ≤ wsub (millis env.tGate) st.lastReconnectAttempt →
      reconnectRequests (checkWiFiStatus env st).log = reconnectRequests st.log + 1 ∧
      (checkWiFiStatus env st).lastReconnectAttempt = millis env.tStamp) ∧
    List.Chain (fun a b => a + 10000 ≤ b) s.lastReconnectAttempt (reconnectTimes envs s) ∧
    List.Pairwise (fun a b => a + 10000 ≤ b) (reconnectTimes envs s) ∧
    (∀ w : Nat,
      ((reconnectTimes envs s).filter (fun t => decide (w ≤ t ∧ t < w + 10000))).length ≤ 1) ∧
    reconnectRequests (runWiFi envs s).log
      = reconnectRequests s.log + (reconnectTimes envs s).length := by
  obtain ⟨hchain, hcount⟩ := reconnectTimes_chain envs s t0 hmono h0
  haveI : IsTrans Nat (fun a b => a + 10000 ≤ b) := ⟨fun a b c h1 h2 => by omega⟩
  have hpair : List.Pairwise (fun a b => a + 10000 ≤ b) (reconnectTimes envs s) :=
    (List.pairwise_cons.mp (List.chain_iff_pairwise.mp hchain)).2
  refine ⟨?_, ?_, hchain, hpair, window_at_most_one _ hpair, hcount⟩
  · intro env st hne
    by_contra hcon
    exact hne (checkWiFiStatus_reconnect_none env st hcon).1
  · intro env st hp hc hg
    exact checkWiFiStatus_reconnect_issued env st hp hc hg

/-- C9, worked instance: disconnected ticks at 10000, 15000, 19999 and 21000 ms
issue requests at 10000 and 21000 only. -/
theorem reconnect_throttled_witness :
    reconnectTimes ticksDown steadyState = [10000, 21000] ∧
    List.Pairwise (fun a b => a + 10000 ≤ b) (reconnectTimes ticksDown steadyState) ∧
    reconnectRequests (runWiFi ticksDown steadyState).log
      = reconnectRequests steadyState.log + (reconnectTimes ticksDown steadyState).length :=
  have h := reconnect_throttled ticksDown steadyState 0
    (by simp [MonotoneTicks, ticksDown, tickDown, U32]) (by decide)
  ⟨by decide, h.2.2.2.1, h.2.2.2.2.2⟩

/-! ## Worked instances for C1 and C3 -/

/-- C1 amended, worked instance: with the last runs at 4294967000 and a true
elapsed time of 600 ms the guard reads the wrapped value 304; `updateTime` runs
and stores the later reading 307 of its second `millis()`; `checkWiFiStatus`
does not run (600 < 1000) and changes nothing. -/
theorem interval_gates_wrap_safe_witness :
    (4294967000 + 600) % 2 ^ 32 = 304 ∧
    (updateTime (nearWrapState.lastUpdate + 600) rtcJune 4294967603 nearWrapState).log
      ≠ nearWrapState.log ∧
    (updateTime (nearWrapState.lastUpdate + 600) rtcJune 4294967603 nearWrapState).lastUpdate
      = 307 ∧
    checkWiFiStatus wifiAfterWrap nearWrapState = nearWrapState :=
  have h := interval_gates_wrap_safe nearWrapState 600 (by decide) rtcJune 4294967603
    dateAfterWrap wifiAfterWrap rfl rfl
  ⟨by decide, h.1.1.2 (by decide), h.1.2.1 (by decide), h.2.2.2.2 (by decide)⟩

/-- C3, worked instance: a fetched year 2019 (`tm_year = 119`) is rejected and
the clock keeps 2024-01-01 00:00:00; the fetched year 2024 is accepted. -/
theorem syncRTCWithNTP_year_check_witness :
    ((syncRTCWithNTP (some { tmJune with tm_year := 119 }) steadyState).1 = false ∧
      (syncRTCWithNTP (some { tmJune with tm_year := 119 }) steadyState).2.rtc
        = ⟨2024, 1, 1, 0, 0, 0⟩ ∧
      (syncRTCWithNTP (some { tmJune with tm_year := 119 }) steadyState).2.lastResponseTime
        = "NEVER") ∧
    (syncRTCWithNTP (some tmJune) steadyState).1 = true :=
  have h1 := (syncRTCWithNTP_year_check { tmJune with tm_year := 119 } steadyState).1 (by decide)
  have h2 := (syncRTCWithNTP_year_check tmJune steadyState).2 (by decide)
  ⟨⟨h1.1, h1.2.1, h1.2.2.2⟩, h2⟩

end TDisplayClock
